import Mathlib

/-!
Verification of the design-tree descriptor engine and asset-export
orchestrator of the Figma-Context-MCP server, as implemented in
`src/utils/logger.ts` (live binding) and `src/mcp.ts` (parallel binding).

The TypeScript is shallowly embedded: JS truthiness and defaulting
(`x || d`, `!!x`, `!== undefined`) become explicit `Option`-based helpers,
template-literal concatenations become lists of string chunks (the final
description is their concatenation, in order), and `Math.round` becomes
floor of `q + 1/2` on rationals.
-/

/-! ## JS value helpers -/

/-- JS `s || d` for a possibly-undefined string: `undefined` and `""` are falsy. -/
def jsStrOr (o : Option String) (d : String) : String :=
  match o with
  | none => d
  | some s => if s = "" then d else s

/-- JS truthiness of a possibly-undefined string. -/
def jsStrTruthy (o : Option String) : Bool :=
  match o with
  | none => false
  | some s => !(s == "")

/-- JS `q || d` for a possibly-undefined number: `undefined` and `0` are falsy. -/
def jsNumOr (o : Option ℚ) (d : ℚ) : ℚ :=
  match o with
  | none => d
  | some q => if q = 0 then d else q

/-- JS truthiness of a possibly-undefined number. -/
def jsNumTruthy (o : Option ℚ) : Bool :=
  match o with
  | none => false
  | some q => decide (q ≠ 0)

/-- JS `${q || d}` where the fallback is a string (used for font size or weight). -/
def jsNumOrStr (o : Option ℚ) (d : String) : String :=
  match o with
  | none => d
  | some q => if q = 0 then d else toString q

/-- JS `Math.round`: round half toward positive infinity. -/
def jsRound (q : ℚ) : ℤ := ⌊q + 1/2⌋

/-! ## ColorCodec (`rgbToHex` in both binding modules) -/

/-- One lowercase hex digit, as produced by JS `Number.prototype.toString(16)`. -/
def hexDigit (n : Nat) : Char :=
  if n < 10 then Char.ofNat (48 + n) else Char.ofNat (87 + n)

/-- Base-16 digit expansion with explicit fuel so it reduces definitionally. -/
def hexDigitsAux : Nat → Nat → List Char
  | _, 0 => []
  | n, fuel + 1 =>
    if n < 16 then [hexDigit n] else hexDigitsAux (n / 16) fuel ++ [hexDigit (n % 16)]

/-- Digits of `n` in base 16, most significant first (`n.toString(16)` for naturals). -/
def natHexDigits (n : Nat) : List Char := hexDigitsAux n (n + 1)

/-- JS `n.toString(16)` for an integer. -/
def intHexStr (n : ℤ) : String :=
  if n < 0 then "-" ++ String.mk (natHexDigits n.natAbs) else String.mk (natHexDigits n.toNat)

/-- The zero-padding step of the source `toHex` helper:
`hex.length === 1 ? "0" + hex : hex`. -/
def pad2 (s : String) : String := if s.length = 1 then "0" ++ s else s

/-- An RGB color with channels in `[0,1]`, as delivered by the fetch service. -/
structure Color where
  r : ℚ
  g : ℚ
  b : ℚ

/-- The per-channel step of the source `rgbToHex`:
`Math.round(value * 255).toString(16)`, zero-padded to two digits. -/
def toHexChannel (v : ℚ) : String := pad2 (intHexStr (jsRound (v * 255)))

/-- `rgbToHex(rgb)` from the source: `"#000000"` for a missing color, otherwise
`#` followed by the three padded channel values. -/
def rgbToHex (rgb : Option Color) : String :=
  match rgb with
  | none => "#000000"
  | some c => "#" ++ toHexChannel c.r ++ toHexChannel c.g ++ toHexChannel c.b

/-! ## ExportOrchestrator aggregate (`download_figma_images` handler) -/

/-- Modelled from the spec: the fetch-service collaborators `getImageFills` and
`getImages` are outside `src/`; per section 6 of the spec each returns one
boolean per input item, `true` meaning the item was saved successfully. -/
def DownloadOutcomes : Type := List Bool

/-- JS `Array.prototype.find`: first element satisfying the predicate, else
`undefined`. -/
def jsFind (l : List Bool) (p : Bool → Bool) : Option Bool := l.find? p

/-- JS truthiness of the result of `find` (an element or `undefined`). -/
def jsOptBoolTruthy : Option Bool → Bool
  | none => false
  | some b => b

/-- The handler's merge `[...f, ...r]` of fill outcomes followed by render
outcomes. -/
def mergeDownloads (f r : List Bool) : List Bool := f ++ r

/-- `const saveSuccess = !downloads.find((success) => !success)` from the
download tool handler. -/
def saveSuccess (downloads : List Bool) : Bool :=
  !(jsOptBoolTruthy (jsFind downloads (fun success => !success)))

/-- JS stringification of a boolean inside `Array.prototype.join`. -/
def jsBoolStr (b : Bool) : String := if b then "true" else "false"

/-- The text reported by the download tool handler. -/
def downloadsResultText (downloads : List Bool) : String :=
  if saveSuccess downloads then
    "Success, " ++ toString downloads.length ++ " images downloaded: " ++
      String.intercalate ", " (downloads.map jsBoolStr)
  else "Failed"

/-! ## PurposeClassifier (`inferElementPurpose` in the descriptor modules) -/

/-- Does the pattern occur at the head of the list? -/
def startsPat : List Char → List Char → Bool
  | [], _ => true
  | _ :: _, [] => false
  | p :: ps, c :: cs => p == c && startsPat ps cs

/-- Does the pattern occur anywhere in the list? -/
def hasSub (pat : List Char) : List Char → Bool
  | [] => pat.isEmpty
  | c :: cs => startsPat pat (c :: cs) || hasSub pat cs

/-- JS `String.prototype.includes` (substring containment). -/
def strIncludes (s pat : String) : Bool := hasSub pat.data s.data

/-! ## Render-request rewrite in the `src/mcp.ts` binding (claim C10) -/

/-- A node entry of the `download_figma_images` tool input. -/
structure DownloadNodeReq where
  nodeId : String
  imageRef : Option String
  fileName : String

/-- A render request forwarded to `figmaService.getImages`. -/
structure RenderRequest where
  nodeId : String
  fileName : String
  fileType : String

/-- JS `String.prototype.replace` with a plain single-character pattern:
only the first occurrence is replaced. -/
def jsReplaceOnce : List Char → Char → Char → List Char
  | [], _, _ => []
  | x :: xs, c, r => if x = c then r :: xs else x :: jsReplaceOnce xs c r

/-- The `nodeId` rewrite in the `src/mcp.ts` handler:
`nodeId?.includes("-") ? nodeId.replace("-", ":") : nodeId`. -/
def renderNodeId (s : String) : String :=
  if s.data.contains '-' then String.mk (jsReplaceOnce s.data '-' ':') else s

/-- `imageFills = nodes.filter(({imageRef}) => !!imageRef)`: forwarded with the
original `nodeId`. -/
def mcpImageFills (nodes : List DownloadNodeReq) : List DownloadNodeReq :=
  nodes.filter (fun n => jsStrTruthy n.imageRef)

/-- JS `String.prototype.endsWith`: the pattern is a suffix of the string. -/
def strEndsWith (s pat : String) : Bool := startsPat pat.data.reverse s.data.reverse

/-- The file-type inference `fileName.endsWith(".svg") ? "svg" : "png"`. -/
def svgOrPng (fileName : String) : String :=
  if strEndsWith fileName ".svg" then "svg" else "png"

/-- `renderRequests` from the `src/mcp.ts` handler: the non-fill entries with
the `nodeId` rewrite and the `.svg`-suffix file-type inference. -/
def mcpRenderRequests (nodes : List DownloadNodeReq) : List RenderRequest :=
  (nodes.filter (fun n => !(jsStrTruthy n.imageRef))).map (fun n =>
    { nodeId := renderNodeId n.nodeId
      fileName := n.fileName
      fileType := svgOrPng n.fileName })

/-- A bounding box `{x, y, width, height}`. -/
structure Rect where
  x : ℚ
  y : ℚ
  width : ℚ
  height : ℚ

/-- A `size` record; the descriptor only tests its presence. -/
structure SizeWH where
  width : ℚ
  height : ℚ

/-- A fill or stroke paint entry. -/
structure Paint where
  type : String
  color : Option Color
  opacity : Option ℚ

/-- A shadow offset `{x, y}`. -/
structure Offset where
  x : ℚ
  y : ℚ

/-- An effect entry; only `DROP_SHADOW` entries are rendered. -/
structure EffectEntry where
  type : String
  color : Option Color
  offset : Option Offset
  radius : Option ℚ

/-- A typography `style` block. -/
structure TypeStyle where
  fontFamily : Option String
  fontSize : Option ℚ
  fontWeight : Option ℚ
  textAlignHorizontal : Option String
  textAlignVertical : Option String
  lineHeightPx : Option ℚ

/-- The non-recursive fields of a design node, as read by `analyzeNode`. -/
structure NodeFields where
  name : Option String
  type : String
  absoluteBoundingBox : Option Rect
  size : Option SizeWH
  layoutAlign : Option String
  layoutGrow : Option ℚ
  paddingTop : Option ℚ
  paddingRight : Option ℚ
  paddingBottom : Option ℚ
  paddingLeft : Option ℚ
  itemSpacing : Option ℚ
  fills : Option (List Paint)
  style : Option TypeStyle
  strokes : Option (List Paint)
  strokeWeight : Option ℚ
  cornerRadius : Option ℚ
  effects : Option (List EffectEntry)
  characters : Option String

mutual
/-- One element of the design tree: its fields plus its ordered children
(an absent or empty `children` array behaves identically in the source,
so both are `NodeList.nil`). -/
inductive DesignNode where
  | mk (fields : NodeFields) (children : NodeList)

/-- An ordered sequence of design nodes. -/
inductive NodeList where
  | nil
  | cons (head : DesignNode) (tail : NodeList)
end

/-- The fields of a node. -/
def DesignNode.fields : DesignNode → NodeFields
  | .mk f _ => f

/-- The children of a node. -/
def DesignNode.children : DesignNode → NodeList
  | .mk _ cs => cs

/-- Length of a child list. -/
def NodeList.length : NodeList → Nat
  | .nil => 0
  | .cons _ t => t.length + 1

mutual
/-- Total number of nodes in a tree. -/
def nodeCount : DesignNode → Nat
  | .mk _ cs => nodeCountL cs + 1

/-- Total number of nodes in a forest. -/
def nodeCountL : NodeList → Nat
  | .nil => 0
  | .cons c rest => nodeCount c + nodeCountL rest
end

mutual
/-- Number of sibling dividers the descriptor emits for a tree: one fewer
than the child count at each node, summed over all nodes. -/
def dividerCount : DesignNode → Nat
  | .mk _ cs => (cs.length - 1) + dividerCountL cs

/-- Sum of `dividerCount` over a forest. -/
def dividerCountL : NodeList → Nat
  | .nil => 0
  | .cons c rest => dividerCount c + dividerCountL rest
end

/-- `inferElementPurpose(node)` from the descriptor modules: an ordered rule
list over `(name, type)`, first match wins. -/
def inferElementPurpose (f : NodeFields) : String :=
  let nm := (jsStrOr f.name "").toLower
  if f.type == "TEXT" then "Text element"
  else if f.type == "RECTANGLE" && strIncludes nm "button" then "Button"
  else if f.type == "RECTANGLE" && strIncludes nm "card" then "Card or container"
  else if f.type == "FRAME" && strIncludes nm "header" then "Header"
  else if f.type == "FRAME" && strIncludes nm "footer" then "Footer"
  else if f.type == "FRAME" && strIncludes nm "nav" then "Navigation"
  else if f.type == "INSTANCE" then "Reusable component"
  else if strIncludes nm "icon" then "Icon"
  else if strIncludes nm "image" then "Image"
  else if strIncludes nm "input" then "Input field"
  else f.type.toLower ++ " element"

/-! ## DescriptorEngine chunks

Each `description += ...` statement of `analyzeNode` becomes one string
chunk; the produced description is the concatenation of the chunks in
order. -/

/-- `"  ".repeat(level)`. -/
def indentStr (level : Nat) : String := String.mk (List.replicate (2 * level) ' ')

/-- The per-node element header
`${indent}## ${level === 0 ? "🏗️ " : "📦 "}${name || "Unnamed element"} (${type})\n\n`. -/
def headerChunk (level : Nat) (f : NodeFields) : String :=
  indentStr level ++ ("## " ++ ((if level = 0 then "🏗️ " else "📦 ") ++
    (jsStrOr f.name "Unnamed element" ++ (" (" ++ (f.type ++ ")\n\n")))))

/-- `${indent}### 🎯 Identification and Purpose\n`. -/
def identHeaderChunk (level : Nat) : String :=
  indentStr level ++ "### 🎯 Identification and Purpose\n"

/-- `${indent}- **Name**: ${name || "Unnamed"}\n`. -/
def nameChunk (level : Nat) (f : NodeFields) : String :=
  indentStr level ++ ("- **Name**: " ++ (jsStrOr f.name "Unnamed" ++ "\n"))

/-- `${indent}- **Type**: ${type}\n`. -/
def typeChunk (level : Nat) (f : NodeFields) : String :=
  indentStr level ++ ("- **Type**: " ++ (f.type ++ "\n"))

/-- `${indent}- **Apparent function**: ${inferElementPurpose(currentNode)}\n\n`. -/
def funChunk (level : Nat) (f : NodeFields) : String :=
  indentStr level ++ ("- **Apparent function**: " ++ (inferElementPurpose f ++ "\n\n"))

/-- `${indent}### 📐 Geometry and Position\n`. -/
def geoHeaderChunk (level : Nat) : String :=
  indentStr level ++ "### 📐 Geometry and Position\n"

/-- `${indent}- **Position**: x=${x}px, y=${y}px\n`. -/
def positionChunk (level : Nat) (bb : Rect) : String :=
  indentStr level ++ ("- **Position**: x=" ++ (toString bb.x ++ ("px, y=" ++
    (toString bb.y ++ "px\n"))))

/-- `${indent}- **Dimensions**: ${width}px × ${height}px\n`. -/
def dimensionsChunk (level : Nat) (bb : Rect) : String :=
  indentStr level ++ ("- **Dimensions**: " ++ (toString bb.width ++ ("px × " ++
    (toString bb.height ++ "px\n"))))

/-- `${indent}- **Alignment**: ${layoutAlign}\n`. -/
def alignChunk (level : Nat) (a : String) : String :=
  indentStr level ++ ("- **Alignment**: " ++ (a ++ "\n"))

/-- `${indent}- **Growth**: ${layoutGrow}\n`. -/
def growthChunk (level : Nat) (g : ℚ) : String :=
  indentStr level ++ ("- **Growth**: " ++ (toString g ++ "\n"))

/-- `${indent}- **Padding**: top=...px, right=...px, bottom=...px, left=...px\n`. -/
def paddingChunk (level : Nat) (f : NodeFields) : String :=
  indentStr level ++ ("- **Padding**: top=" ++ (toString (jsNumOr f.paddingTop 0) ++
    ("px, right=" ++ (toString (jsNumOr f.paddingRight 0) ++
    ("px, bottom=" ++ (toString (jsNumOr f.paddingBottom 0) ++
    ("px, left=" ++ (toString (jsNumOr f.paddingLeft 0) ++ "px\n"))))))))

/-- `${indent}- **Item spacing**: ${itemSpacing}px\n`. -/
def spacingChunk (level : Nat) (s : ℚ) : String :=
  indentStr level ++ ("- **Item spacing**: " ++ (toString s ++ "px\n"))

/-- The geometry-section guard `currentNode.absoluteBoundingBox || currentNode.size`. -/
def geoPresent (f : NodeFields) : Bool := f.absoluteBoundingBox.isSome || f.size.isSome

/-- The padding-line guard
`paddingLeft || paddingTop || paddingRight || paddingBottom`. -/
def paddingAny (f : NodeFields) : Bool :=
  jsNumTruthy f.paddingLeft || jsNumTruthy f.paddingTop ||
    jsNumTruthy f.paddingRight || jsNumTruthy f.paddingBottom

/-- The geometry section of a node block (empty when neither a bounding box
nor a size is present). -/
def geometryChunks (f : NodeFields) (level : Nat) : List String :=
  if geoPresent f then
    [geoHeaderChunk level] ++
    (match f.absoluteBoundingBox with
     | some bb => [positionChunk level bb, dimensionsChunk level bb]
     | none => []) ++
    (if jsStrTruthy f.layoutAlign then [alignChunk level (f.layoutAlign.getD "")] else []) ++
    (match f.layoutGrow with
     | some g => [growthChunk level g]
     | none => []) ++
    (if paddingAny f then [paddingChunk level f] else []) ++
    (match f.itemSpacing with
     | some s => [spacingChunk level s]
     | none => []) ++
    ["\n"]
  else []

/-- `${indent}### 🎨 Visual Appearance\n`. -/
def appearHeaderChunk (level : Nat) : String :=
  indentStr level ++ "### 🎨 Visual Appearance\n"

/-- `${indent}#### **Colors:**\n`. -/
def colorsHeaderChunk (level : Nat) : String :=
  indentStr level ++ "#### **Colors:**\n"

/-- `${indent}- **Fill ${index+1}**: ${color} (Opacity: ${Math.round((opacity || 1) * 100)}%)\n`. -/
def fillChunk (level : Nat) (idx : Nat) (p : Paint) : String :=
  indentStr level ++ ("- **Fill " ++ (toString (idx + 1) ++ ("**: " ++
    (rgbToHex p.color ++ (" (Opacity: " ++
    (toString (jsRound (jsNumOr p.opacity 1 * 100)) ++ "%)\n"))))))

/-- The colors section: one line per `SOLID` fill, indexed by array position. -/
def colorsChunks (f : NodeFields) (level : Nat) : List String :=
  match f.fills with
  | none => []
  | some fills =>
    if fills.isEmpty then []
    else colorsHeaderChunk level ::
      fills.enum.filterMap (fun pr =>
        if pr.2.type == "SOLID" then some (fillChunk level pr.1 pr.2) else none)

/-- `${indent}#### **Typography:**\n`. -/
def typoHeaderChunk (level : Nat) : String :=
  indentStr level ++ "#### **Typography:**\n"

/-- `${indent}- **Font**: ${fontFamily || "Not specified"}\n`. -/
def fontChunk (level : Nat) (st : TypeStyle) : String :=
  indentStr level ++ ("- **Font**: " ++ (jsStrOr st.fontFamily "Not specified" ++ "\n"))

/-- `${indent}- **Size**: ${fontSize || "Not specified"}px\n`. -/
def sizeChunk (level : Nat) (st : TypeStyle) : String :=
  indentStr level ++ ("- **Size**: " ++ (jsNumOrStr st.fontSize "Not specified" ++ "px\n"))

/-- `${indent}- **Weight**: ${fontWeight || "Normal"}\n`. -/
def weightChunk (level : Nat) (st : TypeStyle) : String :=
  indentStr level ++ ("- **Weight**: " ++ (jsNumOrStr st.fontWeight "Normal" ++ "\n"))

/-- `${indent}- **Horizontal alignment**: ${textAlignHorizontal}\n`. -/
def halignChunk (level : Nat) (a : String) : String :=
  indentStr level ++ ("- **Horizontal alignment**: " ++ (a ++ "\n"))

/-- `${indent}- **Vertical alignment**: ${textAlignVertical}\n`. -/
def valignChunk (level : Nat) (a : String) : String :=
  indentStr level ++ ("- **Vertical alignment**: " ++ (a ++ "\n"))

/-- `${indent}- **Line height**: ${lineHeightPx}px\n`. -/
def lineHeightChunk (level : Nat) (h : ℚ) : String :=
  indentStr level ++ ("- **Line height**: " ++ (toString h ++ "px\n"))

/-- The typography section, present whenever a `style` block exists. -/
def typographyChunks (f : NodeFields) (level : Nat) : List String :=
  match f.style with
  | none => []
  | some st =>
    [typoHeaderChunk level, fontChunk level st, sizeChunk level st, weightChunk level st] ++
    (if jsStrTruthy st.textAlignHorizontal then
      [halignChunk level (st.textAlignHorizontal.getD "")] else []) ++
    (if jsStrTruthy st.textAlignVertical then
      [valignChunk level (st.textAlignVertical.getD "")] else []) ++
    (if jsNumTruthy st.lineHeightPx then
      [lineHeightChunk level (st.lineHeightPx.getD 0)] else [])

/-- `${indent}#### **Borders:**\n`. -/
def bordersHeaderChunk (level : Nat) : String :=
  indentStr level ++ "#### **Borders:**\n"

/-- `${indent}- **Border ${index+1}**: ${color}, width=${strokeWeight || 1}px\n`. -/
def borderChunk (level : Nat) (idx : Nat) (p : Paint) (w : ℚ) : String :=
  indentStr level ++ ("- **Border " ++ (toString (idx + 1) ++ ("**: " ++
    (rgbToHex p.color ++ (", width=" ++ (toString w ++ "px\n"))))))

/-- `${indent}- **Corner radius**: ${cornerRadius}px\n`. -/
def cornerChunk (level : Nat) (r : ℚ) : String :=
  indentStr level ++ ("- **Corner radius**: " ++ (toString r ++ "px\n"))

/-- The borders section: one line per `SOLID` stroke, then the corner-radius
line when defined (both inside the strokes-nonempty guard, as in the source). -/
def bordersChunks (f : NodeFields) (level : Nat) : List String :=
  match f.strokes with
  | none => []
  | some strokes =>
    if strokes.isEmpty then []
    else (bordersHeaderChunk level ::
      strokes.enum.filterMap (fun pr =>
        if pr.2.type == "SOLID" then
          some (borderChunk level pr.1 pr.2 (jsNumOr f.strokeWeight 1)) else none)) ++
      (match f.cornerRadius with
       | some r => [cornerChunk level r]
       | none => [])

/-- `${indent}#### **Effects:**\n`. -/
def effectsHeaderChunk (level : Nat) : String :=
  indentStr level ++ "#### **Effects:**\n"

/-- `${indent}- **Shadow ${index+1}**: color=${color}, offset=(${x}px, ${y}px), blur=${r}px\n`. -/
def shadowChunk (level : Nat) (idx : Nat) (e : EffectEntry) : String :=
  indentStr level ++ ("- **Shadow " ++ (toString (idx + 1) ++ ("**: color=" ++
    (rgbToHex e.color ++ (", offset=(" ++
    (toString (jsNumOr (e.offset.map Offset.x) 0) ++ ("px, " ++
    (toString (jsNumOr (e.offset.map Offset.y) 0) ++ ("px), blur=" ++
    (toString (jsNumOr e.radius 0) ++ "px\n"))))))))))

/-- The effects section: one line per `DROP_SHADOW` entry. -/
def effectsChunks (f : NodeFields) (level : Nat) : List String :=
  match f.effects with
  | none => []
  | some effects =>
    if effects.isEmpty then []
    else effectsHeaderChunk level ::
      effects.enum.filterMap (fun pr =>
        if pr.2.type == "DROP_SHADOW" then some (shadowChunk level pr.1 pr.2) else none)

/-- `${indent}#### **Content:**\n`. -/
def contentHeaderChunk (level : Nat) : String :=
  indentStr level ++ "#### **Content:**\n"

/-- `${indent}- **Text**: "${characters}"\n`. -/
def textChunk (level : Nat) (t : String) : String :=
  indentStr level ++ ("- **Text**: \x22" ++ (t ++ "\x22\n"))

/-- The content section, present when `characters` is truthy. -/
def contentChunks (f : NodeFields) (level : Nat) : List String :=
  if jsStrTruthy f.characters then
    [contentHeaderChunk level, textChunk level (f.characters.getD "")]
  else []

/-- `${indent}### 👥 Child Elements (${children.length})\n\n`. -/
def childHeaderChunk (level : Nat) (k : Nat) : String :=
  indentStr level ++ ("### 👥 Child Elements (" ++ (toString k ++ ")\n\n"))

/-- `${indent}---\n\n`, the divider emitted between sibling subtrees. -/
def dividerChunk (level : Nat) : String := indentStr level ++ "---\n\n"

/-- All chunks `analyzeNode` emits for one node before recursing into its
children (the per-node descriptor block). -/
def ownChunks (f : NodeFields) (level : Nat) : List String :=
  [headerChunk level f, identHeaderChunk level, nameChunk level f,
   typeChunk level f, funChunk level f] ++
  geometryChunks f level ++
  [appearHeaderChunk level] ++
  colorsChunks f level ++ typographyChunks f level ++ bordersChunks f level ++
  effectsChunks f level ++ contentChunks f level ++
  ["\n"]

mutual
/-- The chunk sequence emitted by `analyzeNode(currentNode, level)`. -/
def analyzeNodeChunks : DesignNode → Nat → List String
  | .mk f cs, level =>
    ownChunks f level ++
    (match cs with
     | .nil => []
     | .cons c rest =>
       childHeaderChunk level (NodeList.cons c rest).length ::
         childrenChunks (NodeList.cons c rest) level)

/-- The chunks of the children loop at parent indentation `level`: each child
at `level + 1`, with a divider between siblings but not after the last. -/
def childrenChunks : NodeList → Nat → List String
  | .nil, _ => []
  | .cons c .nil, level => analyzeNodeChunks c (level + 1)
  | .cons c (.cons d rest), level =>
    analyzeNodeChunks c (level + 1) ++
      dividerChunk level :: childrenChunks (NodeList.cons d rest) level
end

mutual
/-- The header chunks of a tree in depth-first pre-order, each at the
indentation level the engine uses for that node. -/
def specPreorderHeaders : DesignNode → Nat → List String
  | .mk f cs, level => headerChunk level f :: specPreorderHeadersL cs (level + 1)

/-- Pre-order header chunks of a forest. -/
def specPreorderHeadersL : NodeList → Nat → List String
  | .nil, _ => []
  | .cons c rest, level => specPreorderHeaders c level ++ specPreorderHeadersL rest level
end

/-- The file context read by the global-context section. -/
structure FileContext where
  name : String
  lastModified : Option String
  globalVars : Option (List String)

/-- The global-context and recommendations chunks appended after the traversal. -/
def globalChunks (file : FileContext) : List String :=
  ["\n## 🌐 Global File Context\n\n",
   "- **File name**: " ++ (file.name ++ "\n"),
   "- **Last modified**: " ++ (jsStrOr file.lastModified "Not specified" ++ "\n")] ++
  (match file.globalVars with
   | some keys => if keys.length > 0 then
       ["- **Global variables detected**: " ++ (toString keys.length ++ "\n")] else []
   | none => []) ++
  ["\n## 🔧 Implementation Recommendations\n\n",
   "This visual description has been automatically generated based on Figma data. ",
   "To implement this design:\n\n",
   "1. **Use the hierarchical structure** described to organize your HTML/JSX\n",
   "2. **Implement CSS styles** based on the specified measurements and colors\n",
   "3. **Consider responsiveness** by adapting fixed measurements to relative units\n",
   "4. **Optimize accessibility** by adding ARIA attributes and semantic tags\n\n"]

/-- `generateDetailedVisualDescription(node, file)`: the traversal output
followed by the global-context section. -/
def generateDetailedVisualDescription (node : DesignNode) (file : FileContext) : String :=
  String.join (analyzeNodeChunks node 0 ++ globalChunks file)

/-! ## Syntactic classification of emitted chunks -/

/-- The first `k` characters of a chunk after its indentation. -/
def lineStart (k : Nat) (c : String) : List Char :=
  (c.data.dropWhile (fun ch => ch = ' ')).take k

/-- A chunk is a per-node header block iff it starts (after indentation)
with `## ` — every other chunk the engine emits starts differently. -/
def isHeader (c : String) : Bool := (lineStart 6 c).take 3 == ['#', '#', ' ']

/-- A chunk is a sibling divider iff it starts (after indentation) with `---`. -/
def isDividerChunk (c : String) : Bool := (lineStart 6 c).take 3 == ['-', '-', '-']

/-- A chunk is the alignment line iff it starts with `- **Al`. -/
def isAlignLine (c : String) : Bool := lineStart 6 c == ['-', ' ', '*', '*', 'A', 'l']

/-- A chunk is the growth line iff it starts with `- **Gr`. -/
def isGrowthLine (c : String) : Bool := lineStart 6 c == ['-', ' ', '*', '*', 'G', 'r']

/-- A chunk is the padding line iff it starts with `- **Pa`. -/
def isPaddingLine (c : String) : Bool := lineStart 6 c == ['-', ' ', '*', '*', 'P', 'a']

/-- A chunk is the item-spacing line iff it starts with `- **It`. -/
def isSpacingLine (c : String) : Bool := lineStart 6 c == ['-', ' ', '*', '*', 'I', 't']

/-- Any of the four optional geometry detail lines. -/
def isGeoDetailLine (c : String) : Bool :=
  isAlignLine c || isGrowthLine c || isPaddingLine c || isSpacingLine c

/-! ## DocumentAssembler helpers -/

/-- The complexity heuristic of the `generate_technical_specification` handler:
`nodes.length > 5 ? "High" : nodes.length > 2 ? "Medium" : "Low"` computed on
the top-level `nodes` array of the fetched design. -/
def complexityLevel (nodes : List DesignNode) : String :=
  if nodes.length > 5 then "High" else if nodes.length > 2 then "Medium" else "Low"

/-- Total node count over the top-level `nodes` array (the whole forest). -/
def totalNodeCount (nodes : List DesignNode) : Nat := (nodes.map nodeCount).sum

/-- JS `String.prototype.toLowerCase`, character by character. -/
def toLowerString (s : String) : String := String.mk (s.data.map Char.toLower)

/-- Is a character in `[a-z0-9]` (the classes the sanitizer's regex keeps)? -/
def isAlnum (c : Char) : Bool :=
  ('a' ≤ c && c ≤ 'z') || ('0' ≤ c && c ≤ '9')

mutual
/-- `replace(/[^a-z0-9]+/g, "-")` on an already-lowercased character list:
each maximal run of non-matching characters becomes a single dash. -/
def collapseRuns : List Char → List Char
  | [] => []
  | c :: rest => if isAlnum c then c :: collapseRuns rest else dashThen rest

/-- Emits the single dash for the separator run currently being consumed,
then continues after it. -/
def dashThen : List Char → List Char
  | [] => ['-']
  | c :: rest => if isAlnum c then '-' :: c :: collapseRuns rest else dashThen rest
end

/-- `replace(/^-+/, "")`. -/
def trimLead (l : List Char) : List Char := l.dropWhile (fun c => c = '-')

/-- `replace(/[-]+$/, "")` (trailing-dash trim). -/
def trimTrail (l : List Char) : List Char := (l.reverse.dropWhile (fun c => c = '-')).reverse

/-- The sanitized file name derived from a human title:
`.toLowerCase().replace(/[^a-z0-9]+/g, "-").replace(/^-+|-+$/g, "")`. -/
def sanitizeFileName (s : String) : String :=
  String.mk (trimTrail (trimLead (collapseRuns (toLowerString s).data)))

/-- The maximal `[a-z0-9]` runs of a character list, in order (the groups the
spec says remain after collapsing and trimming). -/
def specRuns (l : List Char) : List (List Char) :=
  match l with
  | [] => []
  | c :: rest =>
    if isAlnum c then (c :: rest.takeWhile isAlnum) :: specRuns (rest.dropWhile isAlnum)
    else specRuns (rest.dropWhile (fun d => !isAlnum d))
termination_by l.length
decreasing_by
  · refine Nat.lt_succ_of_le ?_
    rw [List.dropWhile_eq_drop_findIdx_not]
    simp only [List.length_drop]
    omega
  · refine Nat.lt_succ_of_le ?_
    rw [List.dropWhile_eq_drop_findIdx_not]
    simp only [List.length_drop]
    omega

/-- Joins runs with a single dash between consecutive runs. -/
def specJoin : List (List Char) → List Char
  | [] => []
  | [r] => r
  | r :: s :: rs => r ++ '-' :: specJoin (s :: rs)

/-- The sanitizer as the spec phrases it: the lowercased title's maximal
alphanumeric runs joined by single dashes (no leading or trailing dash). -/
def specSanitize (s : String) : String :=
  String.mk (specJoin (specRuns (toLowerString s).data))

/-! ## Concrete instances used by witnesses and counterexamples -/

/-- Node fields with only a name and a type, every optional field absent. -/
def plainFields (name : Option String) (type : String) : NodeFields :=
  { name := name, type := type, absoluteBoundingBox := none, size := none,
    layoutAlign := none, layoutGrow := none, paddingTop := none, paddingRight := none,
    paddingBottom := none, paddingLeft := none, itemSpacing := none, fills := none,
    style := none, strokes := none, strokeWeight := none, cornerRadius := none,
    effects := none, characters := none }

/-- A node with a layout alignment but neither a bounding box nor a size. -/
def alignOnlyFields : NodeFields :=
  { plainFields (some "Row") "FRAME" with layoutAlign := some "MIN" }

/-- A childless leaf node. -/
def leafNode : DesignNode := .mk (plainFields (some "Leaf") "RECTANGLE") .nil

/-- One root with six children: seven nodes in total. -/
def sevenNodeTree : DesignNode :=
  .mk (plainFields (some "Root") "FRAME")
    (.cons leafNode (.cons leafNode (.cons leafNode
      (.cons leafNode (.cons leafNode (.cons leafNode .nil))))))

/-- A two-node demo tree. -/
def demoNode : DesignNode :=
  .mk (plainFields (some "Login Screen") "FRAME")
    (.cons (.mk (plainFields (some "Email") "TEXT") .nil) .nil)

/-- A demo file context. -/
def demoFile : FileContext := { name := "Demo", lastModified := none, globalVars := none }

/-- A solid white fill whose opacity field is present and zero. -/
def zeroOpacityFill : Paint := { type := "SOLID", color := some ⟨1, 1, 1⟩, opacity := some 0 }

/-! ## Chunk classification lemmas -/

/-- The length of `dropWhile` never exceeds the input length. -/
theorem dropWhile_length_le {α : Type} (p : α → Bool) (l : List α) :
    (l.dropWhile p).length ≤ l.length := by
  induction l with
  | nil => simp
  | cons a l ih =>
    rw [List.dropWhile_cons]
    split
    · exact le_trans ih (by simp)
    · simp

/-- Indentation does not affect a chunk's post-indent prefix. -/
theorem lineStart_indent (k level : Nat) (s : String) :
    lineStart k (indentStr level ++ s) = lineStart k s := by
  simp only [lineStart, indentStr, String.data_append]
  rw [List.dropWhile_append_of_pos]
  intro a ha
  have := List.eq_of_mem_replicate ha
  simp [this]

/-- The post-indent prefix of a chunk that starts with a fixed non-blank
literal is determined by that literal. -/
theorem lineStart_lit (k : Nat) (lit tail : String)
    (h1 : lit.data.dropWhile (fun ch => ch = ' ') = lit.data)
    (h2 : k ≤ lit.data.length) :
    lineStart k (lit ++ tail) = lit.data.take k := by
  simp only [lineStart, String.data_append]
  cases hl : lit.data with
  | nil =>
    rw [hl] at h2
    simp at h2
    simp [h2]
  | cons c cs =>
    rw [hl] at h1 h2
    have hc : ¬(c = ' ') := by
      intro hcc
      rw [List.dropWhile_cons_of_pos (by simp [hcc])] at h1
      have hlen := congrArg List.length h1
      have hle := dropWhile_length_le (fun ch => decide (ch = ' ')) cs
      simp at hlen
      omega
    rw [List.cons_append, List.dropWhile_cons_of_neg (by simpa using hc),
      ← List.cons_append, List.take_append_of_le_length h2]

/-- The 3-character prefix is the truncation of the 6-character prefix. -/
theorem lineStart_take3 (c : String) : (lineStart 6 c).take 3 = lineStart 3 c := by
  simp [lineStart, List.take_take]

/-- A 6-character prefix comparison refuted by the 3-character prefix alone. -/
theorem beq_ls6_false_of_ls3 (c : String) (p3 tgt : List Char)
    (h : lineStart 3 c = p3) (hne : p3 ≠ tgt.take 3) :
    (lineStart 6 c == tgt) = false := by
  rw [beq_eq_false_iff_ne]
  intro he
  apply hne
  rw [← h, ← lineStart_take3, he]

/-- The element header chunk starts with `## `. -/
theorem ls3_headerChunk (level : Nat) (f : NodeFields) :
    lineStart 3 (headerChunk level f) = ['#', '#', ' '] := by
  rw [headerChunk, lineStart_indent,
    lineStart_lit 3 "## " ((if level = 0 then "🏗️ " else "📦 ") ++
      (jsStrOr f.name "Unnamed element" ++ (" (" ++ (f.type ++ ")\n\n"))))
      (by decide) (by decide)]
  decide

/-- The post-indent 6-character prefix of `nameChunk`. -/
theorem ls6_nameChunk (level : Nat) (f : NodeFields) :
    lineStart 6 (nameChunk level f) = ['-', ' ', '*', '*', 'N', 'a'] := by
  rw [nameChunk, lineStart_indent,
    lineStart_lit 6 "- **Name**: "
      (jsStrOr f.name "Unnamed" ++ "\n") (by decide) (by decide)]
  decide

/-- The post-indent 6-character prefix of `typeChunk`. -/
theorem ls6_typeChunk (level : Nat) (f : NodeFields) :
    lineStart 6 (typeChunk level f) = ['-', ' ', '*', '*', 'T', 'y'] := by
  rw [typeChunk, lineStart_indent,
    lineStart_lit 6 "- **Type**: "
      (f.type ++ "\n") (by decide) (by decide)]
  decide

/-- The post-indent 6-character prefix of `funChunk`. -/
theorem ls6_funChunk (level : Nat) (f : NodeFields) :
    lineStart 6 (funChunk level f) = ['-', ' ', '*', '*', 'A', 'p'] := by
  rw [funChunk, lineStart_indent,
    lineStart_lit 6 "- **Apparent function**: "
      (inferElementPurpose f ++ "\n\n") (by decide) (by decide)]
  decide

/-- The post-indent 6-character prefix of `positionChunk`. -/
theorem ls6_positionChunk (level : Nat) (bb : Rect) :
    lineStart 6 (positionChunk level bb) = ['-', ' ', '*', '*', 'P', 'o'] := by
  rw [positionChunk, lineStart_indent,
    lineStart_lit 6 "- **Position**: x="
      (toString bb.x ++ ("px, y=" ++ (toString bb.y ++ "px\n"))) (by decide) (by decide)]
  decide

/-- The post-indent 6-character prefix of `dimensionsChunk`. -/
theorem ls6_dimensionsChunk (level : Nat) (bb : Rect) :
    lineStart 6 (dimensionsChunk level bb) = ['-', ' ', '*', '*', 'D', 'i'] := by
  rw [dimensionsChunk, lineStart_indent,
    lineStart_lit 6 "- **Dimensions**: "
      (toString bb.width ++ ("px × " ++ (toString bb.height ++ "px\n"))) (by decide) (by decide)]
  decide

/-- The post-indent 6-character prefix of `alignChunk`. -/
theorem ls6_alignChunk (level : Nat) (a : String) :
    lineStart 6 (alignChunk level a) = ['-', ' ', '*', '*', 'A', 'l'] := by
  rw [alignChunk, lineStart_indent,
    lineStart_lit 6 "- **Alignment**: "
      (a ++ "\n") (by decide) (by decide)]
  decide

/-- The post-indent 6-character prefix of `growthChunk`. -/
theorem ls6_growthChunk (level : Nat) (g : ℚ) :
    lineStart 6 (growthChunk level g) = ['-', ' ', '*', '*', 'G', 'r'] := by
  rw [growthChunk, lineStart_indent,
    lineStart_lit 6 "- **Growth**: "
      (toString g ++ "\n") (by decide) (by decide)]
  decide

/-- The post-indent 6-character prefix of `paddingChunk`. -/
theorem ls6_paddingChunk (level : Nat) (f : NodeFields) :
    lineStart 6 (paddingChunk level f) = ['-', ' ', '*', '*', 'P', 'a'] := by
  rw [paddingChunk, lineStart_indent,
    lineStart_lit 6 "- **Padding**: top="
      (toString (jsNumOr f.paddingTop 0) ++ ("px, right=" ++ (toString (jsNumOr f.paddingRight 0) ++ ("px, bottom=" ++ (toString (jsNumOr f.paddingBottom 0) ++ ("px, left=" ++ (toString (jsNumOr f.paddingLeft 0) ++ "px\n"))))))) (by decide) (by decide)]
  decide

/-- The post-indent 6-character prefix of `spacingChunk`. -/
theorem ls6_spacingChunk (level : Nat) (s : ℚ) :
    lineStart 6 (spacingChunk level s) = ['-', ' ', '*', '*', 'I', 't'] := by
  rw [spacingChunk, lineStart_indent,
    lineStart_lit 6 "- **Item spacing**: "
      (toString s ++ "px\n") (by decide) (by decide)]
  decide

/-- The post-indent 6-character prefix of `fillChunk`. -/
theorem ls6_fillChunk (level idx : Nat) (p : Paint) :
    lineStart 6 (fillChunk level idx p) = ['-', ' ', '*', '*', 'F', 'i'] := by
  rw [fillChunk, lineStart_indent,
    lineStart_lit 6 "- **Fill "
      (toString (idx + 1) ++ ("**: " ++ (rgbToHex p.color ++ (" (Opacity: " ++ (toString (jsRound (jsNumOr p.opacity 1 * 100)) ++ "%)\n"))))) (by decide) (by decide)]
  decide

/-- The post-indent 6-character prefix of `fontChunk`. -/
theorem ls6_fontChunk (level : Nat) (st : TypeStyle) :
    lineStart 6 (fontChunk level st) = ['-', ' ', '*', '*', 'F', 'o'] := by
  rw [fontChunk, lineStart_indent,
    lineStart_lit 6 "- **Font**: "
      (jsStrOr st.fontFamily "Not specified" ++ "\n") (by decide) (by decide)]
  decide

/-- The post-indent 6-character prefix of `sizeChunk`. -/
theorem ls6_sizeChunk (level : Nat) (st : TypeStyle) :
    lineStart 6 (sizeChunk level st) = ['-', ' ', '*', '*', 'S', 'i'] := by
  rw [sizeChunk, lineStart_indent,
    lineStart_lit 6 "- **Size**: "
      (jsNumOrStr st.fontSize "Not specified" ++ "px\n") (by decide) (by decide)]
  decide

/-- The post-indent 6-character prefix of `weightChunk`. -/
theorem ls6_weightChunk (level : Nat) (st : TypeStyle) :
    lineStart 6 (weightChunk level st) = ['-', ' ', '*', '*', 'W', 'e'] := by
  rw [weightChunk, lineStart_indent,
    lineStart_lit 6 "- **Weight**: "
      (jsNumOrStr st.fontWeight "Normal" ++ "\n") (by decide) (by decide)]
  decide

/-- The post-indent 6-character prefix of `halignChunk`. -/
theorem ls6_halignChunk (level : Nat) (a : String) :
    lineStart 6 (halignChunk level a) = ['-', ' ', '*', '*', 'H', 'o'] := by
  rw [halignChunk, lineStart_indent,
    lineStart_lit 6 "- **Horizontal alignment**: "
      (a ++ "\n") (by decide) (by decide)]
  decide

/-- The post-indent 6-character prefix of `valignChunk`. -/
theorem ls6_valignChunk (level : Nat) (a : String) :
    lineStart 6 (valignChunk level a) = ['-', ' ', '*', '*', 'V', 'e'] := by
  rw [valignChunk, lineStart_indent,
    lineStart_lit 6 "- **Vertical alignment**: "
      (a ++ "\n") (by decide) (by decide)]
  decide

/-- The post-indent 6-character prefix of `lineHeightChunk`. -/
theorem ls6_lineHeightChunk (level : Nat) (h : ℚ) :
    lineStart 6 (lineHeightChunk level h) = ['-', ' ', '*', '*', 'L', 'i'] := by
  rw [lineHeightChunk, lineStart_indent,
    lineStart_lit 6 "- **Line height**: "
      (toString h ++ "px\n") (by decide) (by decide)]
  decide

/-- The post-indent 6-character prefix of `borderChunk`. -/
theorem ls6_borderChunk (level idx : Nat) (p : Paint) (w : ℚ) :
    lineStart 6 (borderChunk level idx p w) = ['-', ' ', '*', '*', 'B', 'o'] := by
  rw [borderChunk, lineStart_indent,
    lineStart_lit 6 "- **Border "
      (toString (idx + 1) ++ ("**: " ++ (rgbToHex p.color ++ (", width=" ++ (toString w ++ "px\n"))))) (by decide) (by decide)]
  decide

/-- The post-indent 6-character prefix of `cornerChunk`. -/
theorem ls6_cornerChunk (level : Nat) (r : ℚ) :
    lineStart 6 (cornerChunk level r) = ['-', ' ', '*', '*', 'C', 'o'] := by
  rw [cornerChunk, lineStart_indent,
    lineStart_lit 6 "- **Corner radius**: "
      (toString r ++ "px\n") (by decide) (by decide)]
  decide

/-- The post-indent 6-character prefix of `shadowChunk`. -/
theorem ls6_shadowChunk (level idx : Nat) (e : EffectEntry) :
    lineStart 6 (shadowChunk level idx e) = ['-', ' ', '*', '*', 'S', 'h'] := by
  rw [shadowChunk, lineStart_indent,
    lineStart_lit 6 "- **Shadow "
      (toString (idx + 1) ++ ("**: color=" ++ (rgbToHex e.color ++ (", offset=(" ++ (toString (jsNumOr (e.offset.map Offset.x) 0) ++ ("px, " ++ (toString (jsNumOr (e.offset.map Offset.y) 0) ++ ("px), blur=" ++ (toString (jsNumOr e.radius 0) ++ "px\n"))))))))) (by decide) (by decide)]
  decide

/-- The post-indent 6-character prefix of `textChunk`. -/
theorem ls6_textChunk (level : Nat) (t : String) :
    lineStart 6 (textChunk level t) = ['-', ' ', '*', '*', 'T', 'e'] := by
  rw [textChunk, lineStart_indent,
    lineStart_lit 6 "- **Text**: \x22"
      (t ++ "\x22\n") (by decide) (by decide)]
  decide

/-- The post-indent 6-character prefix of `childHeaderChunk`. -/
theorem ls6_childHeaderChunk (level k : Nat) :
    lineStart 6 (childHeaderChunk level k) = ['#', '#', '#', ' ', '👥', ' '] := by
  rw [childHeaderChunk, lineStart_indent,
    lineStart_lit 6 "### 👥 Child Elements ("
      (toString k ++ ")\n\n") (by decide) (by decide)]
  decide

/-- The post-indent 6-character prefix of `identHeaderChunk`. -/
theorem ls6_identHeaderChunk (level : Nat) :
    lineStart 6 (identHeaderChunk level) = ['#', '#', '#', ' ', '🎯', ' '] := by
  rw [identHeaderChunk, lineStart_indent]
  decide

/-- The post-indent 6-character prefix of `geoHeaderChunk`. -/
theorem ls6_geoHeaderChunk (level : Nat) :
    lineStart 6 (geoHeaderChunk level) = ['#', '#', '#', ' ', '📐', ' '] := by
  rw [geoHeaderChunk, lineStart_indent]
  decide

/-- The post-indent 6-character prefix of `appearHeaderChunk`. -/
theorem ls6_appearHeaderChunk (level : Nat) :
    lineStart 6 (appearHeaderChunk level) = ['#', '#', '#', ' ', '🎨', ' '] := by
  rw [appearHeaderChunk, lineStart_indent]
  decide

/-- The post-indent 6-character prefix of `colorsHeaderChunk`. -/
theorem ls6_colorsHeaderChunk (level : Nat) :
    lineStart 6 (colorsHeaderChunk level) = ['#', '#', '#', '#', ' ', '*'] := by
  rw [colorsHeaderChunk, lineStart_indent]
  decide

/-- The post-indent 6-character prefix of `typoHeaderChunk`. -/
theorem ls6_typoHeaderChunk (level : Nat) :
    lineStart 6 (typoHeaderChunk level) = ['#', '#', '#', '#', ' ', '*'] := by
  rw [typoHeaderChunk, lineStart_indent]
  decide

/-- The post-indent 6-character prefix of `bordersHeaderChunk`. -/
theorem ls6_bordersHeaderChunk (level : Nat) :
    lineStart 6 (bordersHeaderChunk level) = ['#', '#', '#', '#', ' ', '*'] := by
  rw [bordersHeaderChunk, lineStart_indent]
  decide

/-- The post-indent 6-character prefix of `effectsHeaderChunk`. -/
theorem ls6_effectsHeaderChunk (level : Nat) :
    lineStart 6 (effectsHeaderChunk level) = ['#', '#', '#', '#', ' ', '*'] := by
  rw [effectsHeaderChunk, lineStart_indent]
  decide

/-- The post-indent 6-character prefix of `contentHeaderChunk`. -/
theorem ls6_contentHeaderChunk (level : Nat) :
    lineStart 6 (contentHeaderChunk level) = ['#', '#', '#', '#', ' ', '*'] := by
  rw [contentHeaderChunk, lineStart_indent]
  decide

/-- The post-indent 6-character prefix of `dividerChunk`. -/
theorem ls6_dividerChunk (level : Nat) :
    lineStart 6 (dividerChunk level) = ['-', '-', '-', '\n', '\n'] := by
  rw [dividerChunk, lineStart_indent]
  decide

@[simp] theorem isHeader_headerChunk (level : Nat) (f : NodeFields) :
    isHeader (headerChunk level f) = true := by
  simp only [isHeader, lineStart_take3, ls3_headerChunk]
  decide

@[simp] theorem isDividerChunk_headerChunk (level : Nat) (f : NodeFields) :
    isDividerChunk (headerChunk level f) = false := by
  simp only [isDividerChunk, lineStart_take3, ls3_headerChunk]
  decide

@[simp] theorem isAlignLine_headerChunk (level : Nat) (f : NodeFields) :
    isAlignLine (headerChunk level f) = false := by
  simp only [isAlignLine]
  exact beq_ls6_false_of_ls3 _ _ _ (ls3_headerChunk level f) (by decide)

@[simp] theorem isGrowthLine_headerChunk (level : Nat) (f : NodeFields) :
    isGrowthLine (headerChunk level f) = false := by
  simp only [isGrowthLine]
  exact beq_ls6_false_of_ls3 _ _ _ (ls3_headerChunk level f) (by decide)

@[simp] theorem isPaddingLine_headerChunk (level : Nat) (f : NodeFields) :
    isPaddingLine (headerChunk level f) = false := by
  simp only [isPaddingLine]
  exact beq_ls6_false_of_ls3 _ _ _ (ls3_headerChunk level f) (by decide)

@[simp] theorem isSpacingLine_headerChunk (level : Nat) (f : NodeFields) :
    isSpacingLine (headerChunk level f) = false := by
  simp only [isSpacingLine]
  exact beq_ls6_false_of_ls3 _ _ _ (ls3_headerChunk level f) (by decide)

@[simp] theorem isHeader_nameChunk (level : Nat) (f : NodeFields) :
    isHeader (nameChunk level f) = false := by
  simp only [isHeader, ls6_nameChunk]
  decide

@[simp] theorem isDividerChunk_nameChunk (level : Nat) (f : NodeFields) :
    isDividerChunk (nameChunk level f) = false := by
  simp only [isDividerChunk, ls6_nameChunk]
  decide

@[simp] theorem isAlignLine_nameChunk (level : Nat) (f : NodeFields) :
    isAlignLine (nameChunk level f) = false := by
  simp only [isAlignLine, ls6_nameChunk]
  decide

@[simp] theorem isGrowthLine_nameChunk (level : Nat) (f : NodeFields) :
    isGrowthLine (nameChunk level f) = false := by
  simp only [isGrowthLine, ls6_nameChunk]
  decide

@[simp] theorem isPaddingLine_nameChunk (level : Nat) (f : NodeFields) :
    isPaddingLine (nameChunk level f) = false := by
  simp only [isPaddingLine, ls6_nameChunk]
  decide

@[simp] theorem isSpacingLine_nameChunk (level : Nat) (f : NodeFields) :
    isSpacingLine (nameChunk level f) = false := by
  simp only [isSpacingLine, ls6_nameChunk]
  decide

@[simp] theorem isHeader_typeChunk (level : Nat) (f : NodeFields) :
    isHeader (typeChunk level f) = false := by
  simp only [isHeader, ls6_typeChunk]
  decide

@[simp] theorem isDividerChunk_typeChunk (level : Nat) (f : NodeFields) :
    isDividerChunk (typeChunk level f) = false := by
  simp only [isDividerChunk, ls6_typeChunk]
  decide

@[simp] theorem isAlignLine_typeChunk (level : Nat) (f : NodeFields) :
    isAlignLine (typeChunk level f) = false := by
  simp only [isAlignLine, ls6_typeChunk]
  decide

@[simp] theorem isGrowthLine_typeChunk (level : Nat) (f : NodeFields) :
    isGrowthLine (typeChunk level f) = false := by
  simp only [isGrowthLine, ls6_typeChunk]
  decide

@[simp] theorem isPaddingLine_typeChunk (level : Nat) (f : NodeFields) :
    isPaddingLine (typeChunk level f) = false := by
  simp only [isPaddingLine, ls6_typeChunk]
  decide

@[simp] theorem isSpacingLine_typeChunk (level : Nat) (f : NodeFields) :
    isSpacingLine (typeChunk level f) = false := by
  simp only [isSpacingLine, ls6_typeChunk]
  decide

@[simp] theorem isHeader_funChunk (level : Nat) (f : NodeFields) :
    isHeader (funChunk level f) = false := by
  simp only [isHeader, ls6_funChunk]
  decide

@[simp] theorem isDividerChunk_funChunk (level : Nat) (f : NodeFields) :
    isDividerChunk (funChunk level f) = false := by
  simp only [isDividerChunk, ls6_funChunk]
  decide

@[simp] theorem isAlignLine_funChunk (level : Nat) (f : NodeFields) :
    isAlignLine (funChunk level f) = false := by
  simp only [isAlignLine, ls6_funChunk]
  decide

@[simp] theorem isGrowthLine_funChunk (level : Nat) (f : NodeFields) :
    isGrowthLine (funChunk level f) = false := by
  simp only [isGrowthLine, ls6_funChunk]
  decide

@[simp] theorem isPaddingLine_funChunk (level : Nat) (f : NodeFields) :
    isPaddingLine (funChunk level f) = false := by
  simp only [isPaddingLine, ls6_funChunk]
  decide

@[simp] theorem isSpacingLine_funChunk (level : Nat) (f : NodeFields) :
    isSpacingLine (funChunk level f) = false := by
  simp only [isSpacingLine, ls6_funChunk]
  decide

@[simp] theorem isHeader_positionChunk (level : Nat) (bb : Rect) :
    isHeader (positionChunk level bb) = false := by
  simp only [isHeader, ls6_positionChunk]
  decide

@[simp] theorem isDividerChunk_positionChunk (level : Nat) (bb : Rect) :
    isDividerChunk (positionChunk level bb) = false := by
  simp only [isDividerChunk, ls6_positionChunk]
  decide

@[simp] theorem isAlignLine_positionChunk (level : Nat) (bb : Rect) :
    isAlignLine (positionChunk level bb) = false := by
  simp only [isAlignLine, ls6_positionChunk]
  decide

@[simp] theorem isGrowthLine_positionChunk (level : Nat) (bb : Rect) :
    isGrowthLine (positionChunk level bb) = false := by
  simp only [isGrowthLine, ls6_positionChunk]
  decide

@[simp] theorem isPaddingLine_positionChunk (level : Nat) (bb : Rect) :
    isPaddingLine (positionChunk level bb) = false := by
  simp only [isPaddingLine, ls6_positionChunk]
  decide

@[simp] theorem isSpacingLine_positionChunk (level : Nat) (bb : Rect) :
    isSpacingLine (positionChunk level bb) = false := by
  simp only [isSpacingLine, ls6_positionChunk]
  decide

@[simp] theorem isHeader_dimensionsChunk (level : Nat) (bb : Rect) :
    isHeader (dimensionsChunk level bb) = false := by
  simp only [isHeader, ls6_dimensionsChunk]
  decide

@[simp] theorem isDividerChunk_dimensionsChunk (level : Nat) (bb : Rect) :
    isDividerChunk (dimensionsChunk level bb) = false := by
  simp only [isDividerChunk, ls6_dimensionsChunk]
  decide

@[simp] theorem isAlignLine_dimensionsChunk (level : Nat) (bb : Rect) :
    isAlignLine (dimensionsChunk level bb) = false := by
  simp only [isAlignLine, ls6_dimensionsChunk]
  decide

@[simp] theorem isGrowthLine_dimensionsChunk (level : Nat) (bb : Rect) :
    isGrowthLine (dimensionsChunk level bb) = false := by
  simp only [isGrowthLine, ls6_dimensionsChunk]
  decide

@[simp] theorem isPaddingLine_dimensionsChunk (level : Nat) (bb : Rect) :
    isPaddingLine (dimensionsChunk level bb) = false := by
  simp only [isPaddingLine, ls6_dimensionsChunk]
  decide

@[simp] theorem isSpacingLine_dimensionsChunk (level : Nat) (bb : Rect) :
    isSpacingLine (dimensionsChunk level bb) = false := by
  simp only [isSpacingLine, ls6_dimensionsChunk]
  decide

@[simp] theorem isHeader_alignChunk (level : Nat) (a : String) :
    isHeader (alignChunk level a) = false := by
  simp only [isHeader, ls6_alignChunk]
  decide

@[simp] theorem isDividerChunk_alignChunk (level : Nat) (a : String) :
    isDividerChunk (alignChunk level a) = false := by
  simp only [isDividerChunk, ls6_alignChunk]
  decide

@[simp] theorem isAlignLine_alignChunk (level : Nat) (a : String) :
    isAlignLine (alignChunk level a) = true := by
  simp only [isAlignLine, ls6_alignChunk]
  decide

@[simp] theorem isGrowthLine_alignChunk (level : Nat) (a : String) :
    isGrowthLine (alignChunk level a) = false := by
  simp only [isGrowthLine, ls6_alignChunk]
  decide

@[simp] theorem isPaddingLine_alignChunk (level : Nat) (a : String) :
    isPaddingLine (alignChunk level a) = false := by
  simp only [isPaddingLine, ls6_alignChunk]
  decide

@[simp] theorem isSpacingLine_alignChunk (level : Nat) (a : String) :
    isSpacingLine (alignChunk level a) = false := by
  simp only [isSpacingLine, ls6_alignChunk]
  decide

@[simp] theorem isHeader_growthChunk (level : Nat) (g : ℚ) :
    isHeader (growthChunk level g) = false := by
  simp only [isHeader, ls6_growthChunk]
  decide

@[simp] theorem isDividerChunk_growthChunk (level : Nat) (g : ℚ) :
    isDividerChunk (growthChunk level g) = false := by
  simp only [isDividerChunk, ls6_growthChunk]
  decide

@[simp] theorem isAlignLine_growthChunk (level : Nat) (g : ℚ) :
    isAlignLine (growthChunk level g) = false := by
  simp only [isAlignLine, ls6_growthChunk]
  decide

@[simp] theorem isGrowthLine_growthChunk (level : Nat) (g : ℚ) :
    isGrowthLine (growthChunk level g) = true := by
  simp only [isGrowthLine, ls6_growthChunk]
  decide

@[simp] theorem isPaddingLine_growthChunk (level : Nat) (g : ℚ) :
    isPaddingLine (growthChunk level g) = false := by
  simp only [isPaddingLine, ls6_growthChunk]
  decide

@[simp] theorem isSpacingLine_growthChunk (level : Nat) (g : ℚ) :
    isSpacingLine (growthChunk level g) = false := by
  simp only [isSpacingLine, ls6_growthChunk]
  decide

@[simp] theorem isHeader_paddingChunk (level : Nat) (f : NodeFields) :
    isHeader (paddingChunk level f) = false := by
  simp only [isHeader, ls6_paddingChunk]
  decide

@[simp] theorem isDividerChunk_paddingChunk (level : Nat) (f : NodeFields) :
    isDividerChunk (paddingChunk level f) = false := by
  simp only [isDividerChunk, ls6_paddingChunk]
  decide

@[simp] theorem isAlignLine_paddingChunk (level : Nat) (f : NodeFields) :
    isAlignLine (paddingChunk level f) = false := by
  simp only [isAlignLine, ls6_paddingChunk]
  decide

@[simp] theorem isGrowthLine_paddingChunk (level : Nat) (f : NodeFields) :
    isGrowthLine (paddingChunk level f) = false := by
  simp only [isGrowthLine, ls6_paddingChunk]
  decide

@[simp] theorem isPaddingLine_paddingChunk (level : Nat) (f : NodeFields) :
    isPaddingLine (paddingChunk level f) = true := by
  simp only [isPaddingLine, ls6_paddingChunk]
  decide

@[simp] theorem isSpacingLine_paddingChunk (level : Nat) (f : NodeFields) :
    isSpacingLine (paddingChunk level f) = false := by
  simp only [isSpacingLine, ls6_paddingChunk]
  decide

@[simp] theorem isHeader_spacingChunk (level : Nat) (s : ℚ) :
    isHeader (spacingChunk level s) = false := by
  simp only [isHeader, ls6_spacingChunk]
  decide

@[simp] theorem isDividerChunk_spacingChunk (level : Nat) (s : ℚ) :
    isDividerChunk (spacingChunk level s) = false := by
  simp only [isDividerChunk, ls6_spacingChunk]
  decide

@[simp] theorem isAlignLine_spacingChunk (level : Nat) (s : ℚ) :
    isAlignLine (spacingChunk level s) = false := by
  simp only [isAlignLine, ls6_spacingChunk]
  decide

@[simp] theorem isGrowthLine_spacingChunk (level : Nat) (s : ℚ) :
    isGrowthLine (spacingChunk level s) = false := by
  simp only [isGrowthLine, ls6_spacingChunk]
  decide

@[simp] theorem isPaddingLine_spacingChunk (level : Nat) (s : ℚ) :
    isPaddingLine (spacingChunk level s) = false := by
  simp only [isPaddingLine, ls6_spacingChunk]
  decide

@[simp] theorem isSpacingLine_spacingChunk (level : Nat) (s : ℚ) :
    isSpacingLine (spacingChunk level s) = true := by
  simp only [isSpacingLine, ls6_spacingChunk]
  decide

@[simp] theorem isHeader_fillChunk (level idx : Nat) (p : Paint) :
    isHeader (fillChunk level idx p) = false := by
  simp only [isHeader, ls6_fillChunk]
  decide

@[simp] theorem isDividerChunk_fillChunk (level idx : Nat) (p : Paint) :
    isDividerChunk (fillChunk level idx p) = false := by
  simp only [isDividerChunk, ls6_fillChunk]
  decide

@[simp] theorem isAlignLine_fillChunk (level idx : Nat) (p : Paint) :
    isAlignLine (fillChunk level idx p) = false := by
  simp only [isAlignLine, ls6_fillChunk]
  decide

@[simp] theorem isGrowthLine_fillChunk (level idx : Nat) (p : Paint) :
    isGrowthLine (fillChunk level idx p) = false := by
  simp only [isGrowthLine, ls6_fillChunk]
  decide

@[simp] theorem isPaddingLine_fillChunk (level idx : Nat) (p : Paint) :
    isPaddingLine (fillChunk level idx p) = false := by
  simp only [isPaddingLine, ls6_fillChunk]
  decide

@[simp] theorem isSpacingLine_fillChunk (level idx : Nat) (p : Paint) :
    isSpacingLine (fillChunk level idx p) = false := by
  simp only [isSpacingLine, ls6_fillChunk]
  decide

@[simp] theorem isHeader_fontChunk (level : Nat) (st : TypeStyle) :
    isHeader (fontChunk level st) = false := by
  simp only [isHeader, ls6_fontChunk]
  decide

@[simp] theorem isDividerChunk_fontChunk (level : Nat) (st : TypeStyle) :
    isDividerChunk (fontChunk level st) = false := by
  simp only [isDividerChunk, ls6_fontChunk]
  decide

@[simp] theorem isAlignLine_fontChunk (level : Nat) (st : TypeStyle) :
    isAlignLine (fontChunk level st) = false := by
  simp only [isAlignLine, ls6_fontChunk]
  decide

@[simp] theorem isGrowthLine_fontChunk (level : Nat) (st : TypeStyle) :
    isGrowthLine (fontChunk level st) = false := by
  simp only [isGrowthLine, ls6_fontChunk]
  decide

@[simp] theorem isPaddingLine_fontChunk (level : Nat) (st : TypeStyle) :
    isPaddingLine (fontChunk level st) = false := by
  simp only [isPaddingLine, ls6_fontChunk]
  decide

@[simp] theorem isSpacingLine_fontChunk (level : Nat) (st : TypeStyle) :
    isSpacingLine (fontChunk level st) = false := by
  simp only [isSpacingLine, ls6_fontChunk]
  decide

@[simp] theorem isHeader_sizeChunk (level : Nat) (st : TypeStyle) :
    isHeader (sizeChunk level st) = false := by
  simp only [isHeader, ls6_sizeChunk]
  decide

@[simp] theorem isDividerChunk_sizeChunk (level : Nat) (st : TypeStyle) :
    isDividerChunk (sizeChunk level st) = false := by
  simp only [isDividerChunk, ls6_sizeChunk]
  decide

@[simp] theorem isAlignLine_sizeChunk (level : Nat) (st : TypeStyle) :
    isAlignLine (sizeChunk level st) = false := by
  simp only [isAlignLine, ls6_sizeChunk]
  decide

@[simp] theorem isGrowthLine_sizeChunk (level : Nat) (st : TypeStyle) :
    isGrowthLine (sizeChunk level st) = false := by
  simp only [isGrowthLine, ls6_sizeChunk]
  decide

@[simp] theorem isPaddingLine_sizeChunk (level : Nat) (st : TypeStyle) :
    isPaddingLine (sizeChunk level st) = false := by
  simp only [isPaddingLine, ls6_sizeChunk]
  decide

@[simp] theorem isSpacingLine_sizeChunk (level : Nat) (st : TypeStyle) :
    isSpacingLine (sizeChunk level st) = false := by
  simp only [isSpacingLine, ls6_sizeChunk]
  decide

@[simp] theorem isHeader_weightChunk (level : Nat) (st : TypeStyle) :
    isHeader (weightChunk level st) = false := by
  simp only [isHeader, ls6_weightChunk]
  decide

@[simp] theorem isDividerChunk_weightChunk (level : Nat) (st : TypeStyle) :
    isDividerChunk (weightChunk level st) = false := by
  simp only [isDividerChunk, ls6_weightChunk]
  decide

@[simp] theorem isAlignLine_weightChunk (level : Nat) (st : TypeStyle) :
    isAlignLine (weightChunk level st) = false := by
  simp only [isAlignLine, ls6_weightChunk]
  decide

@[simp] theorem isGrowthLine_weightChunk (level : Nat) (st : TypeStyle) :
    isGrowthLine (weightChunk level st) = false := by
  simp only [isGrowthLine, ls6_weightChunk]
  decide

@[simp] theorem isPaddingLine_weightChunk (level : Nat) (st : TypeStyle) :
    isPaddingLine (weightChunk level st) = false := by
  simp only [isPaddingLine, ls6_weightChunk]
  decide

@[simp] theorem isSpacingLine_weightChunk (level : Nat) (st : TypeStyle) :
    isSpacingLine (weightChunk level st) = false := by
  simp only [isSpacingLine, ls6_weightChunk]
  decide

@[simp] theorem isHeader_halignChunk (level : Nat) (a : String) :
    isHeader (halignChunk level a) = false := by
  simp only [isHeader, ls6_halignChunk]
  decide

@[simp] theorem isDividerChunk_halignChunk (level : Nat) (a : String) :
    isDividerChunk (halignChunk level a) = false := by
  simp only [isDividerChunk, ls6_halignChunk]
  decide

@[simp] theorem isAlignLine_halignChunk (level : Nat) (a : String) :
    isAlignLine (halignChunk level a) = false := by
  simp only [isAlignLine, ls6_halignChunk]
  decide

@[simp] theorem isGrowthLine_halignChunk (level : Nat) (a : String) :
    isGrowthLine (halignChunk level a) = false := by
  simp only [isGrowthLine, ls6_halignChunk]
  decide

@[simp] theorem isPaddingLine_halignChunk (level : Nat) (a : String) :
    isPaddingLine (halignChunk level a) = false := by
  simp only [isPaddingLine, ls6_halignChunk]
  decide

@[simp] theorem isSpacingLine_halignChunk (level : Nat) (a : String) :
    isSpacingLine (halignChunk level a) = false := by
  simp only [isSpacingLine, ls6_halignChunk]
  decide

@[simp] theorem isHeader_valignChunk (level : Nat) (a : String) :
    isHeader (valignChunk level a) = false := by
  simp only [isHeader, ls6_valignChunk]
  decide

@[simp] theorem isDividerChunk_valignChunk (level : Nat) (a : String) :
    isDividerChunk (valignChunk level a) = false := by
  simp only [isDividerChunk, ls6_valignChunk]
  decide

@[simp] theorem isAlignLine_valignChunk (level : Nat) (a : String) :
    isAlignLine (valignChunk level a) = false := by
  simp only [isAlignLine, ls6_valignChunk]
  decide

@[simp] theorem isGrowthLine_valignChunk (level : Nat) (a : String) :
    isGrowthLine (valignChunk level a) = false := by
  simp only [isGrowthLine, ls6_valignChunk]
  decide

@[simp] theorem isPaddingLine_valignChunk (level : Nat) (a : String) :
    isPaddingLine (valignChunk level a) = false := by
  simp only [isPaddingLine, ls6_valignChunk]
  decide

@[simp] theorem isSpacingLine_valignChunk (level : Nat) (a : String) :
    isSpacingLine (valignChunk level a) = false := by
  simp only [isSpacingLine, ls6_valignChunk]
  decide

@[simp] theorem isHeader_lineHeightChunk (level : Nat) (h : ℚ) :
    isHeader (lineHeightChunk level h) = false := by
  simp only [isHeader, ls6_lineHeightChunk]
  decide

@[simp] theorem isDividerChunk_lineHeightChunk (level : Nat) (h : ℚ) :
    isDividerChunk (lineHeightChunk level h) = false := by
  simp only [isDividerChunk, ls6_lineHeightChunk]
  decide

@[simp] theorem isAlignLine_lineHeightChunk (level : Nat) (h : ℚ) :
    isAlignLine (lineHeightChunk level h) = false := by
  simp only [isAlignLine, ls6_lineHeightChunk]
  decide

@[simp] theorem isGrowthLine_lineHeightChunk (level : Nat) (h : ℚ) :
    isGrowthLine (lineHeightChunk level h) = false := by
  simp only [isGrowthLine, ls6_lineHeightChunk]
  decide

@[simp] theorem isPaddingLine_lineHeightChunk (level : Nat) (h : ℚ) :
    isPaddingLine (lineHeightChunk level h) = false := by
  simp only [isPaddingLine, ls6_lineHeightChunk]
  decide

@[simp] theorem isSpacingLine_lineHeightChunk (level : Nat) (h : ℚ) :
    isSpacingLine (lineHeightChunk level h) = false := by
  simp only [isSpacingLine, ls6_lineHeightChunk]
  decide

@[simp] theorem isHeader_borderChunk (level idx : Nat) (p : Paint) (w : ℚ) :
    isHeader (borderChunk level idx p w) = false := by
  simp only [isHeader, ls6_borderChunk]
  decide

@[simp] theorem isDividerChunk_borderChunk (level idx : Nat) (p : Paint) (w : ℚ) :
    isDividerChunk (borderChunk level idx p w) = false := by
  simp only [isDividerChunk, ls6_borderChunk]
  decide

@[simp] theorem isAlignLine_borderChunk (level idx : Nat) (p : Paint) (w : ℚ) :
    isAlignLine (borderChunk level idx p w) = false := by
  simp only [isAlignLine, ls6_borderChunk]
  decide

@[simp] theorem isGrowthLine_borderChunk (level idx : Nat) (p : Paint) (w : ℚ) :
    isGrowthLine (borderChunk level idx p w) = false := by
  simp only [isGrowthLine, ls6_borderChunk]
  decide

@[simp] theorem isPaddingLine_borderChunk (level idx : Nat) (p : Paint) (w : ℚ) :
    isPaddingLine (borderChunk level idx p w) = false := by
  simp only [isPaddingLine, ls6_borderChunk]
  decide

@[simp] theorem isSpacingLine_borderChunk (level idx : Nat) (p : Paint) (w : ℚ) :
    isSpacingLine (borderChunk level idx p w) = false := by
  simp only [isSpacingLine, ls6_borderChunk]
  decide

@[simp] theorem isHeader_cornerChunk (level : Nat) (r : ℚ) :
    isHeader (cornerChunk level r) = false := by
  simp only [isHeader, ls6_cornerChunk]
  decide

@[simp] theorem isDividerChunk_cornerChunk (level : Nat) (r : ℚ) :
    isDividerChunk (cornerChunk level r) = false := by
  simp only [isDividerChunk, ls6_cornerChunk]
  decide

@[simp] theorem isAlignLine_cornerChunk (level : Nat) (r : ℚ) :
    isAlignLine (cornerChunk level r) = false := by
  simp only [isAlignLine, ls6_cornerChunk]
  decide

@[simp] theorem isGrowthLine_cornerChunk (level : Nat) (r : ℚ) :
    isGrowthLine (cornerChunk level r) = false := by
  simp only [isGrowthLine, ls6_cornerChunk]
  decide

@[simp] theorem isPaddingLine_cornerChunk (level : Nat) (r : ℚ) :
    isPaddingLine (cornerChunk level r) = false := by
  simp only [isPaddingLine, ls6_cornerChunk]
  decide

@[simp] theorem isSpacingLine_cornerChunk (level : Nat) (r : ℚ) :
    isSpacingLine (cornerChunk level r) = false := by
  simp only [isSpacingLine, ls6_cornerChunk]
  decide

@[simp] theorem isHeader_shadowChunk (level idx : Nat) (e : EffectEntry) :
    isHeader (shadowChunk level idx e) = false := by
  simp only [isHeader, ls6_shadowChunk]
  decide

@[simp] theorem isDividerChunk_shadowChunk (level idx : Nat) (e : EffectEntry) :
    isDividerChunk (shadowChunk level idx e) = false := by
  simp only [isDividerChunk, ls6_shadowChunk]
  decide

@[simp] theorem isAlignLine_shadowChunk (level idx : Nat) (e : EffectEntry) :
    isAlignLine (shadowChunk level idx e) = false := by
  simp only [isAlignLine, ls6_shadowChunk]
  decide

@[simp] theorem isGrowthLine_shadowChunk (level idx : Nat) (e : EffectEntry) :
    isGrowthLine (shadowChunk level idx e) = false := by
  simp only [isGrowthLine, ls6_shadowChunk]
  decide

@[simp] theorem isPaddingLine_shadowChunk (level idx : Nat) (e : EffectEntry) :
    isPaddingLine (shadowChunk level idx e) = false := by
  simp only [isPaddingLine, ls6_shadowChunk]
  decide

@[simp] theorem isSpacingLine_shadowChunk (level idx : Nat) (e : EffectEntry) :
    isSpacingLine (shadowChunk level idx e) = false := by
  simp only [isSpacingLine, ls6_shadowChunk]
  decide

@[simp] theorem isHeader_textChunk (level : Nat) (t : String) :
    isHeader (textChunk level t) = false := by
  simp only [isHeader, ls6_textChunk]
  decide

@[simp] theorem isDividerChunk_textChunk (level : Nat) (t : String) :
    isDividerChunk (textChunk level t) = false := by
  simp only [isDividerChunk, ls6_textChunk]
  decide

@[simp] theorem isAlignLine_textChunk (level : Nat) (t : String) :
    isAlignLine (textChunk level t) = false := by
  simp only [isAlignLine, ls6_textChunk]
  decide

@[simp] theorem isGrowthLine_textChunk (level : Nat) (t : String) :
    isGrowthLine (textChunk level t) = false := by
  simp only [isGrowthLine, ls6_textChunk]
  decide

@[simp] theorem isPaddingLine_textChunk (level : Nat) (t : String) :
    isPaddingLine (textChunk level t) = false := by
  simp only [isPaddingLine, ls6_textChunk]
  decide

@[simp] theorem isSpacingLine_textChunk (level : Nat) (t : String) :
    isSpacingLine (textChunk level t) = false := by
  simp only [isSpacingLine, ls6_textChunk]
  decide

@[simp] theorem isHeader_childHeaderChunk (level k : Nat) :
    isHeader (childHeaderChunk level k) = false := by
  simp only [isHeader, ls6_childHeaderChunk]
  decide

@[simp] theorem isDividerChunk_childHeaderChunk (level k : Nat) :
    isDividerChunk (childHeaderChunk level k) = false := by
  simp only [isDividerChunk, ls6_childHeaderChunk]
  decide

@[simp] theorem isAlignLine_childHeaderChunk (level k : Nat) :
    isAlignLine (childHeaderChunk level k) = false := by
  simp only [isAlignLine, ls6_childHeaderChunk]
  decide

@[simp] theorem isGrowthLine_childHeaderChunk (level k : Nat) :
    isGrowthLine (childHeaderChunk level k) = false := by
  simp only [isGrowthLine, ls6_childHeaderChunk]
  decide

@[simp] theorem isPaddingLine_childHeaderChunk (level k : Nat) :
    isPaddingLine (childHeaderChunk level k) = false := by
  simp only [isPaddingLine, ls6_childHeaderChunk]
  decide

@[simp] theorem isSpacingLine_childHeaderChunk (level k : Nat) :
    isSpacingLine (childHeaderChunk level k) = false := by
  simp only [isSpacingLine, ls6_childHeaderChunk]
  decide

@[simp] theorem isHeader_identHeaderChunk (level : Nat) :
    isHeader (identHeaderChunk level) = false := by
  simp only [isHeader, ls6_identHeaderChunk]
  decide

@[simp] theorem isDividerChunk_identHeaderChunk (level : Nat) :
    isDividerChunk (identHeaderChunk level) = false := by
  simp only [isDividerChunk, ls6_identHeaderChunk]
  decide

@[simp] theorem isAlignLine_identHeaderChunk (level : Nat) :
    isAlignLine (identHeaderChunk level) = false := by
  simp only [isAlignLine, ls6_identHeaderChunk]
  decide

@[simp] theorem isGrowthLine_identHeaderChunk (level : Nat) :
    isGrowthLine (identHeaderChunk level) = false := by
  simp only [isGrowthLine, ls6_identHeaderChunk]
  decide

@[simp] theorem isPaddingLine_identHeaderChunk (level : Nat) :
    isPaddingLine (identHeaderChunk level) = false := by
  simp only [isPaddingLine, ls6_identHeaderChunk]
  decide

@[simp] theorem isSpacingLine_identHeaderChunk (level : Nat) :
    isSpacingLine (identHeaderChunk level) = false := by
  simp only [isSpacingLine, ls6_identHeaderChunk]
  decide

@[simp] theorem isHeader_geoHeaderChunk (level : Nat) :
    isHeader (geoHeaderChunk level) = false := by
  simp only [isHeader, ls6_geoHeaderChunk]
  decide

@[simp] theorem isDividerChunk_geoHeaderChunk (level : Nat) :
    isDividerChunk (geoHeaderChunk level) = false := by
  simp only [isDividerChunk, ls6_geoHeaderChunk]
  decide

@[simp] theorem isAlignLine_geoHeaderChunk (level : Nat) :
    isAlignLine (geoHeaderChunk level) = false := by
  simp only [isAlignLine, ls6_geoHeaderChunk]
  decide

@[simp] theorem isGrowthLine_geoHeaderChunk (level : Nat) :
    isGrowthLine (geoHeaderChunk level) = false := by
  simp only [isGrowthLine, ls6_geoHeaderChunk]
  decide

@[simp] theorem isPaddingLine_geoHeaderChunk (level : Nat) :
    isPaddingLine (geoHeaderChunk level) = false := by
  simp only [isPaddingLine, ls6_geoHeaderChunk]
  decide

@[simp] theorem isSpacingLine_geoHeaderChunk (level : Nat) :
    isSpacingLine (geoHeaderChunk level) = false := by
  simp only [isSpacingLine, ls6_geoHeaderChunk]
  decide

@[simp] theorem isHeader_appearHeaderChunk (level : Nat) :
    isHeader (appearHeaderChunk level) = false := by
  simp only [isHeader, ls6_appearHeaderChunk]
  decide

@[simp] theorem isDividerChunk_appearHeaderChunk (level : Nat) :
    isDividerChunk (appearHeaderChunk level) = false := by
  simp only [isDividerChunk, ls6_appearHeaderChunk]
  decide

@[simp] theorem isAlignLine_appearHeaderChunk (level : Nat) :
    isAlignLine (appearHeaderChunk level) = false := by
  simp only [isAlignLine, ls6_appearHeaderChunk]
  decide

@[simp] theorem isGrowthLine_appearHeaderChunk (level : Nat) :
    isGrowthLine (appearHeaderChunk level) = false := by
  simp only [isGrowthLine, ls6_appearHeaderChunk]
  decide

@[simp] theorem isPaddingLine_appearHeaderChunk (level : Nat) :
    isPaddingLine (appearHeaderChunk level) = false := by
  simp only [isPaddingLine, ls6_appearHeaderChunk]
  decide

@[simp] theorem isSpacingLine_appearHeaderChunk (level : Nat) :
    isSpacingLine (appearHeaderChunk level) = false := by
  simp only [isSpacingLine, ls6_appearHeaderChunk]
  decide

@[simp] theorem isHeader_colorsHeaderChunk (level : Nat) :
    isHeader (colorsHeaderChunk level) = false := by
  simp only [isHeader, ls6_colorsHeaderChunk]
  decide

@[simp] theorem isDividerChunk_colorsHeaderChunk (level : Nat) :
    isDividerChunk (colorsHeaderChunk level) = false := by
  simp only [isDividerChunk, ls6_colorsHeaderChunk]
  decide

@[simp] theorem isAlignLine_colorsHeaderChunk (level : Nat) :
    isAlignLine (colorsHeaderChunk level) = false := by
  simp only [isAlignLine, ls6_colorsHeaderChunk]
  decide

@[simp] theorem isGrowthLine_colorsHeaderChunk (level : Nat) :
    isGrowthLine (colorsHeaderChunk level) = false := by
  simp only [isGrowthLine, ls6_colorsHeaderChunk]
  decide

@[simp] theorem isPaddingLine_colorsHeaderChunk (level : Nat) :
    isPaddingLine (colorsHeaderChunk level) = false := by
  simp only [isPaddingLine, ls6_colorsHeaderChunk]
  decide

@[simp] theorem isSpacingLine_colorsHeaderChunk (level : Nat) :
    isSpacingLine (colorsHeaderChunk level) = false := by
  simp only [isSpacingLine, ls6_colorsHeaderChunk]
  decide

@[simp] theorem isHeader_typoHeaderChunk (level : Nat) :
    isHeader (typoHeaderChunk level) = false := by
  simp only [isHeader, ls6_typoHeaderChunk]
  decide

@[simp] theorem isDividerChunk_typoHeaderChunk (level : Nat) :
    isDividerChunk (typoHeaderChunk level) = false := by
  simp only [isDividerChunk, ls6_typoHeaderChunk]
  decide

@[simp] theorem isAlignLine_typoHeaderChunk (level : Nat) :
    isAlignLine (typoHeaderChunk level) = false := by
  simp only [isAlignLine, ls6_typoHeaderChunk]
  decide

@[simp] theorem isGrowthLine_typoHeaderChunk (level : Nat) :
    isGrowthLine (typoHeaderChunk level) = false := by
  simp only [isGrowthLine, ls6_typoHeaderChunk]
  decide

@[simp] theorem isPaddingLine_typoHeaderChunk (level : Nat) :
    isPaddingLine (typoHeaderChunk level) = false := by
  simp only [isPaddingLine, ls6_typoHeaderChunk]
  decide

@[simp] theorem isSpacingLine_typoHeaderChunk (level : Nat) :
    isSpacingLine (typoHeaderChunk level) = false := by
  simp only [isSpacingLine, ls6_typoHeaderChunk]
  decide

@[simp] theorem isHeader_bordersHeaderChunk (level : Nat) :
    isHeader (bordersHeaderChunk level) = false := by
  simp only [isHeader, ls6_bordersHeaderChunk]
  decide

@[simp] theorem isDividerChunk_bordersHeaderChunk (level : Nat) :
    isDividerChunk (bordersHeaderChunk level) = false := by
  simp only [isDividerChunk, ls6_bordersHeaderChunk]
  decide

@[simp] theorem isAlignLine_bordersHeaderChunk (level : Nat) :
    isAlignLine (bordersHeaderChunk level) = false := by
  simp only [isAlignLine, ls6_bordersHeaderChunk]
  decide

@[simp] theorem isGrowthLine_bordersHeaderChunk (level : Nat) :
    isGrowthLine (bordersHeaderChunk level) = false := by
  simp only [isGrowthLine, ls6_bordersHeaderChunk]
  decide

@[simp] theorem isPaddingLine_bordersHeaderChunk (level : Nat) :
    isPaddingLine (bordersHeaderChunk level) = false := by
  simp only [isPaddingLine, ls6_bordersHeaderChunk]
  decide

@[simp] theorem isSpacingLine_bordersHeaderChunk (level : Nat) :
    isSpacingLine (bordersHeaderChunk level) = false := by
  simp only [isSpacingLine, ls6_bordersHeaderChunk]
  decide

@[simp] theorem isHeader_effectsHeaderChunk (level : Nat) :
    isHeader (effectsHeaderChunk level) = false := by
  simp only [isHeader, ls6_effectsHeaderChunk]
  decide

@[simp] theorem isDividerChunk_effectsHeaderChunk (level : Nat) :
    isDividerChunk (effectsHeaderChunk level) = false := by
  simp only [isDividerChunk, ls6_effectsHeaderChunk]
  decide

@[simp] theorem isAlignLine_effectsHeaderChunk (level : Nat) :
    isAlignLine (effectsHeaderChunk level) = false := by
  simp only [isAlignLine, ls6_effectsHeaderChunk]
  decide

@[simp] theorem isGrowthLine_effectsHeaderChunk (level : Nat) :
    isGrowthLine (effectsHeaderChunk level) = false := by
  simp only [isGrowthLine, ls6_effectsHeaderChunk]
  decide

@[simp] theorem isPaddingLine_effectsHeaderChunk (level : Nat) :
    isPaddingLine (effectsHeaderChunk level) = false := by
  simp only [isPaddingLine, ls6_effectsHeaderChunk]
  decide

@[simp] theorem isSpacingLine_effectsHeaderChunk (level : Nat) :
    isSpacingLine (effectsHeaderChunk level) = false := by
  simp only [isSpacingLine, ls6_effectsHeaderChunk]
  decide

@[simp] theorem isHeader_contentHeaderChunk (level : Nat) :
    isHeader (contentHeaderChunk level) = false := by
  simp only [isHeader, ls6_contentHeaderChunk]
  decide

@[simp] theorem isDividerChunk_contentHeaderChunk (level : Nat) :
    isDividerChunk (contentHeaderChunk level) = false := by
  simp only [isDividerChunk, ls6_contentHeaderChunk]
  decide

@[simp] theorem isAlignLine_contentHeaderChunk (level : Nat) :
    isAlignLine (contentHeaderChunk level) = false := by
  simp only [isAlignLine, ls6_contentHeaderChunk]
  decide

@[simp] theorem isGrowthLine_contentHeaderChunk (level : Nat) :
    isGrowthLine (contentHeaderChunk level) = false := by
  simp only [isGrowthLine, ls6_contentHeaderChunk]
  decide

@[simp] theorem isPaddingLine_contentHeaderChunk (level : Nat) :
    isPaddingLine (contentHeaderChunk level) = false := by
  simp only [isPaddingLine, ls6_contentHeaderChunk]
  decide

@[simp] theorem isSpacingLine_contentHeaderChunk (level : Nat) :
    isSpacingLine (contentHeaderChunk level) = false := by
  simp only [isSpacingLine, ls6_contentHeaderChunk]
  decide

@[simp] theorem isHeader_dividerChunk (level : Nat) :
    isHeader (dividerChunk level) = false := by
  simp only [isHeader, ls6_dividerChunk]
  decide

@[simp] theorem isDividerChunk_dividerChunk (level : Nat) :
    isDividerChunk (dividerChunk level) = true := by
  simp only [isDividerChunk, ls6_dividerChunk]
  decide

@[simp] theorem isAlignLine_dividerChunk (level : Nat) :
    isAlignLine (dividerChunk level) = false := by
  simp only [isAlignLine, ls6_dividerChunk]
  decide

@[simp] theorem isGrowthLine_dividerChunk (level : Nat) :
    isGrowthLine (dividerChunk level) = false := by
  simp only [isGrowthLine, ls6_dividerChunk]
  decide

@[simp] theorem isPaddingLine_dividerChunk (level : Nat) :
    isPaddingLine (dividerChunk level) = false := by
  simp only [isPaddingLine, ls6_dividerChunk]
  decide

@[simp] theorem isSpacingLine_dividerChunk (level : Nat) :
    isSpacingLine (dividerChunk level) = false := by
  simp only [isSpacingLine, ls6_dividerChunk]
  decide

@[simp] theorem isHeader_nl : isHeader "\n" = false := by decide

@[simp] theorem isDividerChunk_nl : isDividerChunk "\n" = false := by decide

@[simp] theorem isAlignLine_nl : isAlignLine "\n" = false := by decide

@[simp] theorem isGrowthLine_nl : isGrowthLine "\n" = false := by decide

@[simp] theorem isPaddingLine_nl : isPaddingLine "\n" = false := by decide

@[simp] theorem isSpacingLine_nl : isSpacingLine "\n" = false := by decide

/-! ## Section-level lemmas -/

/-- `countP` vanishes on a list where the predicate is everywhere false. -/
theorem countP_eq_zero_of_false {l : List String} {p : String → Bool}
    (h : ∀ c ∈ l, p c = false) : l.countP p = 0 := by
  rw [List.countP_eq_zero]
  intro a ha
  simp [h a ha]

/-- `any` is false on a list where the predicate is everywhere false. -/
theorem any_eq_false_of_false {l : List String} {p : String → Bool}
    (h : ∀ c ∈ l, p c = false) : l.any p = false := by
  rw [List.any_eq_false]
  intro a ha
  simp [h a ha]

/-- `filter` is empty on a list where the predicate is everywhere false. -/
theorem filter_eq_nil_of_false {l : List String} {p : String → Bool}
    (h : ∀ c ∈ l, p c = false) : l.filter p = [] := by
  rw [List.filter_eq_nil_iff]
  intro a ha
  simp [h a ha]

/-- Every chunk of the colors section is the section header or a fill line. -/
theorem colors_all_false (p : String → Bool) (f : NodeFields) (level : Nat)
    (hh : p (colorsHeaderChunk level) = false)
    (h : ∀ i q, p (fillChunk level i q) = false) :
    ∀ c ∈ colorsChunks f level, p c = false := by
  intro c hc
  cases hfs : f.fills with
  | none => simp only [colorsChunks, hfs, List.not_mem_nil] at hc
  | some fills =>
    simp only [colorsChunks, hfs] at hc
    by_cases hfe : fills.isEmpty = true
    · simp [hfe] at hc
    · rw [if_neg hfe] at hc
      rcases List.mem_cons.mp hc with rfl | hmem
      · exact hh
      · rcases List.mem_filterMap.mp hmem with ⟨pr, _, heq⟩
        by_cases ht : (pr.2.type == "SOLID") = true
        · rw [if_pos ht] at heq
          cases heq
          exact h pr.1 pr.2
        · rw [if_neg ht] at heq
          cases heq

/-- Every chunk of the borders section is the section header, a border line or
the corner-radius line. -/
theorem borders_all_false (p : String → Bool) (f : NodeFields) (level : Nat)
    (hh : p (bordersHeaderChunk level) = false)
    (h : ∀ i q w, p (borderChunk level i q w) = false)
    (h2 : ∀ r, p (cornerChunk level r) = false) :
    ∀ c ∈ bordersChunks f level, p c = false := by
  intro c hc
  cases hfs : f.strokes with
  | none => simp only [bordersChunks, hfs, List.not_mem_nil] at hc
  | some strokes =>
    simp only [bordersChunks, hfs] at hc
    by_cases hfe : strokes.isEmpty = true
    · simp [hfe] at hc
    · rw [if_neg hfe] at hc
      rcases List.mem_append.mp hc with hmem | hcorner
      · rcases List.mem_cons.mp hmem with rfl | hmem2
        · exact hh
        · rcases List.mem_filterMap.mp hmem2 with ⟨pr, _, heq⟩
          by_cases ht : (pr.2.type == "SOLID") = true
          · rw [if_pos ht] at heq
            cases heq
            exact h pr.1 pr.2 (jsNumOr f.strokeWeight 1)
          · rw [if_neg ht] at heq
            cases heq
      · cases hcr : f.cornerRadius with
        | none => rw [hcr] at hcorner; simp at hcorner
        | some r =>
          rw [hcr] at hcorner
          rcases List.mem_singleton.mp hcorner with rfl
          exact h2 r

/-- Every chunk of the effects section is the section header or a shadow line. -/
theorem effects_all_false (p : String → Bool) (f : NodeFields) (level : Nat)
    (hh : p (effectsHeaderChunk level) = false)
    (h : ∀ i e, p (shadowChunk level i e) = false) :
    ∀ c ∈ effectsChunks f level, p c = false := by
  intro c hc
  cases hfs : f.effects with
  | none => simp only [effectsChunks, hfs, List.not_mem_nil] at hc
  | some effects =>
    simp only [effectsChunks, hfs] at hc
    by_cases hfe : effects.isEmpty = true
    · simp [hfe] at hc
    · rw [if_neg hfe] at hc
      rcases List.mem_cons.mp hc with rfl | hmem
      · exact hh
      · rcases List.mem_filterMap.mp hmem with ⟨pr, _, heq⟩
        by_cases ht : (pr.2.type == "DROP_SHADOW") = true
        · rw [if_pos ht] at heq
          cases heq
          exact h pr.1 pr.2
        · rw [if_neg ht] at heq
          cases heq

/-- Every chunk of the typography section has one of the seven line shapes. -/
theorem typography_all_false (p : String → Bool) (f : NodeFields) (level : Nat)
    (h1 : p (typoHeaderChunk level) = false)
    (h2 : ∀ st, p (fontChunk level st) = false)
    (h3 : ∀ st, p (sizeChunk level st) = false)
    (h4 : ∀ st, p (weightChunk level st) = false)
    (h5 : ∀ a, p (halignChunk level a) = false)
    (h6 : ∀ a, p (valignChunk level a) = false)
    (h7 : ∀ q, p (lineHeightChunk level q) = false) :
    ∀ c ∈ typographyChunks f level, p c = false := by
  intro c hc
  cases hst : f.style with
  | none => simp only [typographyChunks, hst, List.not_mem_nil] at hc
  | some st =>
    simp only [typographyChunks, hst] at hc
    rcases List.mem_append.mp hc with h12 | hL
    · rcases List.mem_append.mp h12 with h01 | hV
      · rcases List.mem_append.mp h01 with h0 | hH
        · simp only [List.mem_cons, List.not_mem_nil, or_false] at h0
          rcases h0 with rfl | rfl | rfl | rfl
          · exact h1
          · exact h2 st
          · exact h3 st
          · exact h4 st
        · by_cases hA : jsStrTruthy st.textAlignHorizontal = true
          · rw [if_pos hA] at hH
            rcases List.mem_singleton.mp hH with rfl
            exact h5 _
          · rw [if_neg hA] at hH
            simp at hH
      · by_cases hB : jsStrTruthy st.textAlignVertical = true
        · rw [if_pos hB] at hV
          rcases List.mem_singleton.mp hV with rfl
          exact h6 _
        · rw [if_neg hB] at hV
          simp at hV
    · by_cases hC : jsNumTruthy st.lineHeightPx = true
      · rw [if_pos hC] at hL
        rcases List.mem_singleton.mp hL with rfl
        exact h7 _
      · rw [if_neg hC] at hL
        simp at hL

/-- Every chunk of the content section is its header or the text line. -/
theorem content_all_false (p : String → Bool) (f : NodeFields) (level : Nat)
    (h1 : p (contentHeaderChunk level) = false)
    (h2 : ∀ t, p (textChunk level t) = false) :
    ∀ c ∈ contentChunks f level, p c = false := by
  intro c hc
  rw [contentChunks] at hc
  by_cases hch : jsStrTruthy f.characters = true
  · rw [if_pos hch] at hc
    simp only [List.mem_cons, List.not_mem_nil, or_false] at hc
    rcases hc with rfl | rfl
    · exact h1
    · exact h2 _
  · rw [if_neg hch] at hc
    simp at hc

/-- Every chunk of the geometry section has one of the eight line shapes. -/
theorem geometry_all_false (p : String → Bool) (f : NodeFields) (level : Nat)
    (h1 : p (geoHeaderChunk level) = false)
    (h2 : ∀ bb, p (positionChunk level bb) = false)
    (h3 : ∀ bb, p (dimensionsChunk level bb) = false)
    (h4 : ∀ a, p (alignChunk level a) = false)
    (h5 : ∀ g, p (growthChunk level g) = false)
    (h6 : p (paddingChunk level f) = false)
    (h7 : ∀ s, p (spacingChunk level s) = false)
    (h8 : p "\n" = false) :
    ∀ c ∈ geometryChunks f level, p c = false := by
  intro c hc
  rw [geometryChunks] at hc
  by_cases hg : geoPresent f = true
  · rw [if_pos hg] at hc
    rcases List.mem_append.mp hc with h1234 | hNl
    · rcases List.mem_append.mp h1234 with h123 | hSp
      · rcases List.mem_append.mp h123 with h12x | hPd
        · rcases List.mem_append.mp h12x with h1x | hGr
          · rcases List.mem_append.mp h1x with h0x | hAl
            · rcases List.mem_append.mp h0x with h0 | hBB
              · rcases List.mem_singleton.mp h0 with rfl
                exact h1
              · cases hbb : f.absoluteBoundingBox with
                | none => rw [hbb] at hBB; simp at hBB
                | some bb =>
                  rw [hbb] at hBB
                  simp only [List.mem_cons, List.not_mem_nil, or_false] at hBB
                  rcases hBB with rfl | rfl
                  · exact h2 bb
                  · exact h3 bb
            · by_cases hA : jsStrTruthy f.layoutAlign = true
              · rw [if_pos hA] at hAl
                rcases List.mem_singleton.mp hAl with rfl
                exact h4 _
              · rw [if_neg hA] at hAl
                simp at hAl
          · cases hlg : f.layoutGrow with
            | none => rw [hlg] at hGr; simp at hGr
            | some g =>
              rw [hlg] at hGr
              rcases List.mem_singleton.mp hGr with rfl
              exact h5 g
        · by_cases hP : paddingAny f = true
          · rw [if_pos hP] at hPd
            rcases List.mem_singleton.mp hPd with rfl
            exact h6
          · rw [if_neg hP] at hPd
            simp at hPd
      · cases hsp : f.itemSpacing with
        | none => rw [hsp] at hSp; simp at hSp
        | some s =>
          rw [hsp] at hSp
          rcases List.mem_singleton.mp hSp with rfl
          exact h7 s
    · rcases List.mem_singleton.mp hNl with rfl
      exact h8
  · rw [if_neg hg] at hc
    simp at hc

/-- The geometry section has an alignment line iff the section is emitted and
`layoutAlign` is truthy. -/
theorem any_align_geometry (f : NodeFields) (level : Nat) :
    (geometryChunks f level).any isAlignLine = (geoPresent f && jsStrTruthy f.layoutAlign) := by
  rw [geometryChunks]
  by_cases hg : geoPresent f = true
  · rw [if_pos hg, hg]
    cases f.absoluteBoundingBox <;> cases f.layoutGrow <;> cases f.itemSpacing <;>
      cases hal : jsStrTruthy f.layoutAlign <;> cases hpd : paddingAny f <;>
        simp [hal, hpd]
  · rw [if_neg hg]
    simp at hg
    simp [hg]

/-- The geometry section has a growth line iff the section is emitted and
`layoutGrow` is defined. -/
theorem any_growth_geometry (f : NodeFields) (level : Nat) :
    (geometryChunks f level).any isGrowthLine = (geoPresent f && f.layoutGrow.isSome) := by
  rw [geometryChunks]
  by_cases hg : geoPresent f = true
  · rw [if_pos hg, hg]
    cases f.absoluteBoundingBox <;> cases f.layoutGrow <;> cases f.itemSpacing <;>
      cases hal : jsStrTruthy f.layoutAlign <;> cases hpd : paddingAny f <;>
        simp [hal, hpd]
  · rw [if_neg hg]
    simp at hg
    simp [hg]

/-- The geometry section has a padding line iff the section is emitted and
some padding value is truthy. -/
theorem any_padding_geometry (f : NodeFields) (level : Nat) :
    (geometryChunks f level).any isPaddingLine = (geoPresent f && paddingAny f) := by
  rw [geometryChunks]
  by_cases hg : geoPresent f = true
  · rw [if_pos hg, hg]
    cases f.absoluteBoundingBox <;> cases f.layoutGrow <;> cases f.itemSpacing <;>
      cases hal : jsStrTruthy f.layoutAlign <;> cases hpd : paddingAny f <;>
        simp [hal, hpd]
  · rw [if_neg hg]
    simp at hg
    simp [hg]

/-- The geometry section has an item-spacing line iff the section is emitted
and `itemSpacing` is defined. -/
theorem any_spacing_geometry (f : NodeFields) (level : Nat) :
    (geometryChunks f level).any isSpacingLine = (geoPresent f && f.itemSpacing.isSome) := by
  rw [geometryChunks]
  by_cases hg : geoPresent f = true
  · rw [if_pos hg, hg]
    cases f.absoluteBoundingBox <;> cases f.layoutGrow <;> cases f.itemSpacing <;>
      cases hal : jsStrTruthy f.layoutAlign <;> cases hpd : paddingAny f <;>
        simp [hal, hpd]
  · rw [if_neg hg]
    simp at hg
    simp [hg]

/-! ## Per-node block lemmas -/

/-- The only header chunk of a node's own block is its element header. -/
theorem own_filter_header (f : NodeFields) (level : Nat) :
    (ownChunks f level).filter isHeader = [headerChunk level f] := by
  rw [ownChunks]
  simp only [List.filter_append]
  rw [filter_eq_nil_of_false (geometry_all_false isHeader f level (by simp) (by intro bb; simp)
      (by intro bb; simp) (by intro a; simp) (by intro g; simp) (by simp) (by intro s; simp)
      (by simp)),
    filter_eq_nil_of_false (colors_all_false isHeader f level (by simp) (by intro i q; simp)),
    filter_eq_nil_of_false (typography_all_false isHeader f level (by simp) (by intro st; simp)
      (by intro st; simp) (by intro st; simp) (by intro a; simp) (by intro a; simp)
      (by intro q; simp)),
    filter_eq_nil_of_false (borders_all_false isHeader f level (by simp) (by intro i q w; simp)
      (by intro r; simp)),
    filter_eq_nil_of_false (effects_all_false isHeader f level (by simp) (by intro i e; simp)),
    filter_eq_nil_of_false (content_all_false isHeader f level (by simp) (by intro t; simp))]
  simp

/-- A node's own block contains no divider chunks. -/
theorem own_countP_divider (f : NodeFields) (level : Nat) :
    (ownChunks f level).countP isDividerChunk = 0 := by
  rw [ownChunks]
  simp only [List.countP_append]
  rw [countP_eq_zero_of_false (geometry_all_false isDividerChunk f level (by simp)
      (by intro bb; simp) (by intro bb; simp) (by intro a; simp) (by intro g; simp) (by simp)
      (by intro s; simp) (by simp)),
    countP_eq_zero_of_false (colors_all_false isDividerChunk f level (by simp)
      (by intro i q; simp)),
    countP_eq_zero_of_false (typography_all_false isDividerChunk f level (by simp)
      (by intro st; simp) (by intro st; simp) (by intro st; simp) (by intro a; simp)
      (by intro a; simp) (by intro q; simp)),
    countP_eq_zero_of_false (borders_all_false isDividerChunk f level (by simp)
      (by intro i q w; simp) (by intro r; simp)),
    countP_eq_zero_of_false (effects_all_false isDividerChunk f level (by simp)
      (by intro i e; simp)),
    countP_eq_zero_of_false (content_all_false isDividerChunk f level (by simp)
      (by intro t; simp))]
  simp [List.countP_cons]

/-- The block of a node has an alignment line iff the geometry section is
emitted and `layoutAlign` is truthy. -/
theorem own_any_align (f : NodeFields) (level : Nat) :
    (ownChunks f level).any isAlignLine = (geoPresent f && jsStrTruthy f.layoutAlign) := by
  rw [ownChunks]
  simp only [List.any_append]
  rw [any_align_geometry,
    any_eq_false_of_false (colors_all_false isAlignLine f level (by simp) (by intro i q; simp)),
    any_eq_false_of_false (typography_all_false isAlignLine f level (by simp) (by intro st; simp)
      (by intro st; simp) (by intro st; simp) (by intro a; simp) (by intro a; simp)
      (by intro q; simp)),
    any_eq_false_of_false (borders_all_false isAlignLine f level (by simp) (by intro i q w; simp)
      (by intro r; simp)),
    any_eq_false_of_false (effects_all_false isAlignLine f level (by simp) (by intro i e; simp)),
    any_eq_false_of_false (content_all_false isAlignLine f level (by simp) (by intro t; simp))]
  simp

/-- The block of a node has a growth line iff the geometry section is emitted
and `layoutGrow` is defined. -/
theorem own_any_growth (f : NodeFields) (level : Nat) :
    (ownChunks f level).any isGrowthLine = (geoPresent f && f.layoutGrow.isSome) := by
  rw [ownChunks]
  simp only [List.any_append]
  rw [any_growth_geometry,
    any_eq_false_of_false (colors_all_false isGrowthLine f level (by simp) (by intro i q; simp)),
    any_eq_false_of_false (typography_all_false isGrowthLine f level (by simp) (by intro st; simp)
      (by intro st; simp) (by intro st; simp) (by intro a; simp) (by intro a; simp)
      (by intro q; simp)),
    any_eq_false_of_false (borders_all_false isGrowthLine f level (by simp) (by intro i q w; simp)
      (by intro r; simp)),
    any_eq_false_of_false (effects_all_false isGrowthLine f level (by simp) (by intro i e; simp)),
    any_eq_false_of_false (content_all_false isGrowthLine f level (by simp) (by intro t; simp))]
  simp

/-- The block of a node has a padding line iff the geometry section is emitted
and at least one padding value is truthy. -/
theorem own_any_padding (f : NodeFields) (level : Nat) :
    (ownChunks f level).any isPaddingLine = (geoPresent f && paddingAny f) := by
  rw [ownChunks]
  simp only [List.any_append]
  rw [any_padding_geometry,
    any_eq_false_of_false (colors_all_false isPaddingLine f level (by simp) (by intro i q; simp)),
    any_eq_false_of_false (typography_all_false isPaddingLine f level (by simp) (by intro st; simp)
      (by intro st; simp) (by intro st; simp) (by intro a; simp) (by intro a; simp)
      (by intro q; simp)),
    any_eq_false_of_false (borders_all_false isPaddingLine f level (by simp) (by intro i q w; simp)
      (by intro r; simp)),
    any_eq_false_of_false (effects_all_false isPaddingLine f level (by simp) (by intro i e; simp)),
    any_eq_false_of_false (content_all_false isPaddingLine f level (by simp) (by intro t; simp))]
  simp

/-- The block of a node has an item-spacing line iff the geometry section is
emitted and `itemSpacing` is defined. -/
theorem own_any_spacing (f : NodeFields) (level : Nat) :
    (ownChunks f level).any isSpacingLine = (geoPresent f && f.itemSpacing.isSome) := by
  rw [ownChunks]
  simp only [List.any_append]
  rw [any_spacing_geometry,
    any_eq_false_of_false (colors_all_false isSpacingLine f level (by simp) (by intro i q; simp)),
    any_eq_false_of_false (typography_all_false isSpacingLine f level (by simp) (by intro st; simp)
      (by intro st; simp) (by intro st; simp) (by intro a; simp) (by intro a; simp)
      (by intro q; simp)),
    any_eq_false_of_false (borders_all_false isSpacingLine f level (by simp) (by intro i q w; simp)
      (by intro r; simp)),
    any_eq_false_of_false (effects_all_false isSpacingLine f level (by simp) (by intro i e; simp)),
    any_eq_false_of_false (content_all_false isSpacingLine f level (by simp) (by intro t; simp))]
  simp

/-! ## Tree-traversal theorems -/

mutual
/-- The header chunks of a traversal are exactly the pre-order header list. -/
theorem filter_header_analyze : ∀ (n : DesignNode) (level : Nat),
    (analyzeNodeChunks n level).filter isHeader = specPreorderHeaders n level
  | .mk f cs, level => by
    cases cs with
    | nil =>
      simp only [analyzeNodeChunks, specPreorderHeaders, specPreorderHeadersL,
        List.filter_append, own_filter_header]
      simp
    | cons c rest =>
      simp only [analyzeNodeChunks, specPreorderHeaders, List.filter_append, own_filter_header,
        List.filter_cons, isHeader_childHeaderChunk]
      rw [filter_header_children (NodeList.cons c rest) level]
      simp [specPreorderHeadersL]

/-- The header chunks of a children loop are the pre-order headers of the
forest at the next indentation level. -/
theorem filter_header_children : ∀ (cs : NodeList) (level : Nat),
    (childrenChunks cs level).filter isHeader = specPreorderHeadersL cs (level + 1)
  | .nil, _ => by simp only [childrenChunks, specPreorderHeadersL, List.filter_nil]
  | .cons c .nil, level => by
    simp only [childrenChunks, specPreorderHeadersL]
    rw [filter_header_analyze c (level + 1)]
    simp [specPreorderHeadersL]
  | .cons c (.cons d rest), level => by
    simp only [childrenChunks, specPreorderHeadersL, List.filter_append]
    rw [filter_header_analyze c (level + 1), List.filter_cons]
    simp only [isHeader_dividerChunk]
    rw [if_neg (by simp : ¬(false = true))]
    rw [filter_header_children (NodeList.cons d rest) level]
    simp [specPreorderHeadersL]
end

mutual
/-- One pre-order header per node. -/
theorem length_spec_headers : ∀ (n : DesignNode) (level : Nat),
    (specPreorderHeaders n level).length = nodeCount n
  | .mk f cs, level => by
    have h := length_spec_headersL cs (level + 1)
    simp only [specPreorderHeaders, nodeCount, List.length_cons, h]

/-- One pre-order header per node of a forest. -/
theorem length_spec_headersL : ∀ (cs : NodeList) (level : Nat),
    (specPreorderHeadersL cs level).length = nodeCountL cs
  | .nil, _ => by simp [specPreorderHeadersL, nodeCountL]
  | .cons c rest, level => by
    have h1 := length_spec_headers c level
    have h2 := length_spec_headersL rest level
    simp only [specPreorderHeadersL, nodeCountL, List.length_append, h1, h2]
end

mutual
/-- The traversal emits exactly one divider fewer than the child count at
every node: dividers separate siblings and none follows the last child. -/
theorem countP_div_analyze : ∀ (n : DesignNode) (level : Nat),
    (analyzeNodeChunks n level).countP isDividerChunk = dividerCount n
  | .mk f cs, level => by
    cases cs with
    | nil =>
      simp only [analyzeNodeChunks, dividerCount, dividerCountL, List.countP_append,
        own_countP_divider, NodeList.length]
      simp
    | cons c rest =>
      have h := countP_div_children (NodeList.cons c rest) level
      simp only [analyzeNodeChunks, dividerCount, List.countP_append, own_countP_divider,
        List.countP_cons, isDividerChunk_childHeaderChunk, h]
      simp

/-- Divider count of the children loop of one node. -/
theorem countP_div_children : ∀ (cs : NodeList) (level : Nat),
    (childrenChunks cs level).countP isDividerChunk =
      (cs.length - 1) + dividerCountL cs
  | .nil, _ => by simp [childrenChunks, dividerCountL, NodeList.length]
  | .cons c .nil, level => by
    have h := countP_div_analyze c (level + 1)
    simp only [childrenChunks, dividerCountL, NodeList.length, h]
    simp
  | .cons c (.cons d rest), level => by
    have h1 := countP_div_analyze c (level + 1)
    have h2 := countP_div_children (NodeList.cons d rest) level
    simp only [childrenChunks, List.countP_append, List.countP_cons,
      isDividerChunk_dividerChunk, h1, h2]
    simp only [dividerCountL, NodeList.length]
    simp
    omega
end

/-! ## Sanitizer lemmas -/

theorem alnum_ne_dash {c : Char} (h : isAlnum c = true) : ¬(c = '-') := by
  intro hc
  subst hc
  simp [isAlnum] at h

theorem dashThen_eq (r : List Char) :
    dashThen r = '-' :: collapseRuns (r.dropWhile (fun d => !isAlnum d)) := by
  induction r with
  | nil => simp [dashThen, collapseRuns]
  | cons c rest ih =>
    rw [dashThen]
    by_cases hc : isAlnum c = true
    · rw [if_pos hc, List.dropWhile_cons_of_neg (by simp [hc]), collapseRuns, if_pos hc]
    · rw [if_neg hc, ih, List.dropWhile_cons_of_pos (by simp at hc; simp [hc])]

theorem collapseRuns_run (t d : List Char) (h : ∀ x ∈ t, isAlnum x = true) :
    collapseRuns (t ++ d) = t ++ collapseRuns d := by
  induction t with
  | nil => simp
  | cons c rest ih =>
    rw [List.cons_append, collapseRuns, if_pos (h c (by simp)), ih (fun x hx => h x (by simp [hx]))]
    simp

theorem trimLead_cons_of_ne {c : Char} {l : List Char} (h : ¬(c = '-')) :
    trimLead (c :: l) = c :: l := by
  rw [trimLead, List.dropWhile_cons_of_neg (by simpa using h)]

theorem trimTrail_all_ne {l : List Char} (h : ∀ x ∈ l, ¬(x = '-')) : trimTrail l = l := by
  rw [trimTrail]
  have hrw : l.reverse.dropWhile (fun c => c = '-') = l.reverse := by
    cases hr : l.reverse with
    | nil => simp
    | cons a t =>
      rw [List.dropWhile_cons_of_neg]
      have ha : a ∈ l := by
        rw [← List.mem_reverse, hr]
        simp
      simpa using h a ha
  rw [hrw, List.reverse_reverse]

theorem trimTrail_append_dash (X : List Char) : trimTrail (X ++ ['-']) = trimTrail X := by
  rw [trimTrail, trimTrail, List.reverse_append]
  simp [List.dropWhile_cons]

theorem trimTrail_ne_nil {e : Char} {X : List Char} (h : ¬(e = '-')) :
    trimTrail (e :: X) ≠ [] := by
  rw [trimTrail]
  intro hcon
  have := congrArg List.reverse hcon
  rw [List.reverse_reverse] at this
  simp only [List.reverse_nil] at this
  rw [List.dropWhile_eq_nil_iff] at this
  have := this e (by simp)
  simp [h] at this

theorem trimTrail_append {W Z : List Char} (h : trimTrail Z ≠ []) :
    trimTrail (W ++ Z) = W ++ trimTrail Z := by
  rw [trimTrail, trimTrail, List.reverse_append, List.dropWhile_append]
  have hz : (Z.reverse.dropWhile (fun c => c = '-')).isEmpty = false := by
    by_contra hcon
    apply h
    simp only [Bool.not_eq_false] at hcon
    rw [List.isEmpty_iff] at hcon
    rw [trimTrail, hcon]
    simp
  rw [if_neg (by simp [hz])]
  simp

theorem sanitize_bridge : ∀ (N : Nat) (l : List Char), l.length ≤ N →
    trimTrail (trimLead (collapseRuns l)) = specJoin (specRuns l) := by
  intro N
  induction N with
  | zero =>
    intro l hl
    have hnil : l = [] := List.eq_nil_of_length_eq_zero (by omega)
    subst hnil
    rw [collapseRuns, trimLead, specRuns.eq_def]
    simp [trimTrail, specJoin]
  | succ n ih =>
    intro l hl
    match l with
    | [] =>
      rw [collapseRuns, trimLead, specRuns.eq_def]
      simp [trimTrail, specJoin]
    | c :: r =>
      simp only [List.length_cons] at hl
      by_cases hc : isAlnum c = true
      · have htal : ∀ x ∈ r.takeWhile isAlnum, isAlnum x = true :=
          fun x hx => List.mem_takeWhile_imp hx
        have hcol : collapseRuns r
            = r.takeWhile isAlnum ++ collapseRuns (r.dropWhile isAlnum) := by
          conv_lhs => rw [← List.takeWhile_append_dropWhile (p := isAlnum) (l := r)]
          exact collapseRuns_run _ _ htal
        have hspec : specRuns (c :: r)
            = (c :: r.takeWhile isAlnum) :: specRuns (r.dropWhile isAlnum) := by
          rw [specRuns.eq_def]
          simp [hc]
        have hct : ∀ x ∈ c :: r.takeWhile isAlnum, ¬(x = '-') := by
          intro x hx
          rcases List.mem_cons.mp hx with rfl | hx
          · exact alnum_ne_dash hc
          · exact alnum_ne_dash (htal x hx)
        rw [collapseRuns, if_pos hc, hcol, hspec,
          trimLead_cons_of_ne (alnum_ne_dash hc)]
        cases hd : r.dropWhile isAlnum with
        | nil =>
          rw [collapseRuns, List.append_nil, specRuns.eq_def]
          simp only []
          rw [specJoin, trimTrail_all_ne hct]
        | cons e d2 =>
          have he : isAlnum e = false := by
            have h0 := List.head?_dropWhile_not isAlnum r
            rw [hd] at h0
            simpa using h0
          have hcold : collapseRuns (e :: d2)
              = '-' :: collapseRuns (d2.dropWhile (fun x => !isAlnum x)) := by
            rw [collapseRuns, if_neg (by simp [he]), dashThen_eq]
          have hspecd : specRuns (e :: d2)
              = specRuns (d2.dropWhile (fun x => !isAlnum x)) := by
            rw [specRuns.eq_def]
            simp [he]
          rw [hcold, hspecd]
          cases hd2 : d2.dropWhile (fun x => !isAlnum x) with
          | nil =>
            rw [collapseRuns, specRuns.eq_def]
            simp only []
            rw [specJoin]
            have hsplit : c :: (r.takeWhile isAlnum ++ ['-'])
                = (c :: r.takeWhile isAlnum) ++ ['-'] := by simp
            rw [hsplit, trimTrail_append_dash, trimTrail_all_ne hct]
          | cons e2 d3 =>
            have he2 : isAlnum e2 = true := by
              have h0 := List.head?_dropWhile_not (fun x => !isAlnum x) d2
              rw [hd2] at h0
              simpa using h0
            have hlen : (e2 :: d3).length ≤ n := by
              have l1 : (e2 :: d3).length ≤ d2.length := by
                rw [← hd2]
                exact dropWhile_length_le _ _
              have l2 : (e :: d2).length ≤ r.length := by
                rw [← hd]
                exact dropWhile_length_le _ _
              simp only [List.length_cons] at l1 l2 ⊢
              omega
            have hIH := ih (e2 :: d3) hlen
            have hlead2 : trimLead (collapseRuns (e2 :: d3)) = collapseRuns (e2 :: d3) := by
              rw [collapseRuns, if_pos he2]
              exact trimLead_cons_of_ne (alnum_ne_dash he2)
            rw [hlead2] at hIH
            have hne : trimTrail (collapseRuns (e2 :: d3)) ≠ [] := by
              rw [collapseRuns, if_pos he2]
              exact trimTrail_ne_nil (alnum_ne_dash he2)
            have hsne : specRuns (e2 :: d3)
                = (e2 :: d3.takeWhile isAlnum) :: specRuns (d3.dropWhile isAlnum) := by
              rw [specRuns.eq_def]
              simp [he2]
            have hsplit : c :: (r.takeWhile isAlnum ++ '-' :: collapseRuns (e2 :: d3))
                = ((c :: r.takeWhile isAlnum) ++ ['-']) ++ collapseRuns (e2 :: d3) := by
              simp
            rw [hsplit, trimTrail_append hne, hIH, hsne, specJoin]
            simp
      · have hc' : isAlnum c = false := by simpa using hc
        have hcol : collapseRuns (c :: r)
            = '-' :: collapseRuns (r.dropWhile (fun d => !isAlnum d)) := by
          rw [collapseRuns, if_neg (by simp [hc']), dashThen_eq]
        have hspec : specRuns (c :: r) = specRuns (r.dropWhile (fun d => !isAlnum d)) := by
          rw [specRuns.eq_def]
          simp [hc']
        have hlen : (r.dropWhile (fun d => !isAlnum d)).length ≤ n := by
          have := dropWhile_length_le (fun d : Char => !isAlnum d) r
          omega
        rw [hcol, hspec, trimLead, List.dropWhile_cons_of_pos (by simp), ← trimLead]
        exact ih _ hlen

/-! ## Claim C1 -/

/-- The negation of the first falsy element found, or of `undefined`, is
always `true`: the aggregate never reports failure. -/
theorem saveSuccess_true (l : List Bool) : saveSuccess l = true := by
  rw [saveSuccess, jsFind]
  cases hf : l.find? (fun success => !success) with
  | none => rfl
  | some b =>
    have hb := List.find?_some hf
    simp at hb
    simp [jsOptBoolTruthy, hb]

/-- C1: the claim says the reported aggregate is success iff every item
outcome (fill items first, then render items) is success, with 2 successful
fills plus 1 failed render yielding aggregate failure with count 3. The code
computes `!downloads.find(s => !s)`, which negates the found element `false`
itself, so the aggregate is identically `true`: at the claimed failing input
it still reports success over the 3 items. -/
theorem claim_C1_aggregate :
    (∀ downloads : List Bool, saveSuccess downloads = true) ∧
    saveSuccess (mergeDownloads [true, true] [false]) = true ∧
    (mergeDownloads [true, true] [false]).length = 3 ∧
    downloadsResultText (mergeDownloads [true, true] [false]) =
      "Success, 3 images downloaded: true, true, false" :=
  ⟨saveSuccess_true, by decide, by decide, by decide⟩

/-! ## Claim C2 -/

/-- C2: a traversal of any tree emits exactly one header block per node, in
depth-first pre-order at the engine's indentation levels, and exactly one
sibling divider fewer than the child count at every node (so the divider is
omitted after the last child). -/
theorem claim_C2_headers_preorder : ∀ (n : DesignNode) (level : Nat),
    (analyzeNodeChunks n level).filter isHeader = specPreorderHeaders n level ∧
    ((analyzeNodeChunks n level).filter isHeader).length = nodeCount n ∧
    (analyzeNodeChunks n level).countP isDividerChunk = dividerCount n :=
  fun n level =>
    ⟨filter_header_analyze n level,
     by rw [filter_header_analyze n level]; exact length_spec_headers n level,
     countP_div_analyze n level⟩

/-! ## Claim C3 -/

/-- C3: `inferElementPurpose` is a pure function of `(name, type)` evaluating
an ordered rule list, and the `TEXT` type rule wins over any name keyword. -/
theorem claim_C3_inferPurpose :
    (∀ a b : NodeFields, a.name = b.name → a.type = b.type →
      inferElementPurpose a = inferElementPurpose b) ∧
    (∀ f : NodeFields, f.type = "TEXT" → inferElementPurpose f = "Text element") := by
  constructor
  · intro a b h1 h2
    simp only [inferElementPurpose, h1, h2]
  · intro f h
    simp [inferElementPurpose, h]

/-- Witness for C3 at the spec's example `{type: "TEXT", name: "Login Button"}`. -/
theorem claim_C3_witness :
    (plainFields (some "Login Button") "TEXT").type = "TEXT" ∧
    inferElementPurpose (plainFields (some "Login Button") "TEXT") = "Text element" :=
  ⟨rfl, claim_C3_inferPurpose.2 _ rfl⟩

/-! ## Claim C4 -/

/-- For a channel in `[0,1]`, `Math.round(v * 255)` lies in `[0, 255]`. -/
theorem jsRound_channel_bounds {v : ℚ} (h0 : 0 ≤ v) (h1 : v ≤ 1) :
    0 ≤ jsRound (v * 255) ∧ jsRound (v * 255) ≤ 255 := by
  rw [jsRound]
  constructor
  · apply Int.floor_nonneg.mpr
    nlinarith
  · have : ⌊v * 255 + 1 / 2⌋ < 256 := by
      apply Int.floor_lt.mpr
      push_cast
      nlinarith
    omega

/-- One hex digit suffices below 16, with any positive fuel. -/
theorem hexDigitsAux_small {n fuel : Nat} (h : n < 16) (hf : 1 ≤ fuel) :
    hexDigitsAux n fuel = [hexDigit n] := by
  obtain ⟨m, rfl⟩ : ∃ m, fuel = m + 1 := ⟨fuel - 1, by omega⟩
  rw [hexDigitsAux, if_pos h]

/-- The padded channel rendering is always exactly two characters for a
channel value in `[0,1]`. -/
theorem toHexChannel_length {v : ℚ} (h0 : 0 ≤ v) (h1 : v ≤ 1) :
    (toHexChannel v).length = 2 := by
  obtain ⟨hl, hu⟩ := jsRound_channel_bounds h0 h1
  rw [toHexChannel, intHexStr, if_neg (by omega)]
  have hn : (jsRound (v * 255)).toNat ≤ 255 := by omega
  by_cases h16 : (jsRound (v * 255)).toNat < 16
  · rw [natHexDigits, hexDigitsAux_small h16 (by omega)]
    have hlen : (String.mk [hexDigit (jsRound (v * 255)).toNat]).length = 1 := rfl
    rw [pad2, if_pos hlen]
    rfl
  · rw [natHexDigits, hexDigitsAux, if_neg h16,
      hexDigitsAux_small (by omega) (by omega)]
    have hlen2 : (String.mk ([hexDigit ((jsRound (v * 255)).toNat / 16)] ++
        [hexDigit ((jsRound (v * 255)).toNat % 16)])).length = 2 := rfl
    rw [pad2, if_neg (by rw [hlen2]; omega)]
    exact hlen2

/-- C4: for channels in `[0,1]`, `rgbToHex` returns `#` followed by the three
zero-padded two-hex-digit renderings of `round(channel * 255)` — a 7-character
string — and returns `"#000000"` for an absent color. -/
theorem claim_C4_rgbToHex :
    (∀ r g b : ℚ, 0 ≤ r → r ≤ 1 → 0 ≤ g → g ≤ 1 → 0 ≤ b → b ≤ 1 →
      rgbToHex (some ⟨r, g, b⟩) =
        "#" ++ pad2 (intHexStr (jsRound (r * 255))) ++ pad2 (intHexStr (jsRound (g * 255))) ++
          pad2 (intHexStr (jsRound (b * 255))) ∧
      (rgbToHex (some ⟨r, g, b⟩)).length = 7) ∧
    rgbToHex none = "#000000" := by
  refine ⟨?_, rfl⟩
  intro r g b hr0 hr1 hg0 hg1 hb0 hb1
  refine ⟨rfl, ?_⟩
  rw [rgbToHex]
  simp only [String.length_append]
  rw [toHexChannel_length hr0 hr1, toHexChannel_length hg0 hg1, toHexChannel_length hb0 hb1]
  rfl

/-- Witness for C4 at the white color `{r: 1, g: 1, b: 1}`. -/
theorem claim_C4_witness :
    (0 : ℚ) ≤ 1 ∧ (1 : ℚ) ≤ 1 ∧ (rgbToHex (some ⟨1, 1, 1⟩)).length = 7 :=
  ⟨by decide, by decide,
    (claim_C4_rgbToHex.1 1 1 1 (by decide) (by decide) (by decide) (by decide) (by decide)
      (by decide)).2⟩

/-! ## Claim C5 -/

/-- C5 counterexample: a node whose layout alignment is present but that has
neither a bounding box nor a size gets no alignment line in its block, so
"an alignment line whenever the node's layout alignment is present" is false
as stated. -/
theorem claim_C5_counterexample :
    jsStrTruthy alignOnlyFields.layoutAlign = true ∧
    (ownChunks alignOnlyFields 0).any isAlignLine = false := by
  constructor
  · decide
  · decide

/-- C5 as amended: within the geometry section — that is, provided the node
has a bounding box or a size — the alignment line appears iff the layout
alignment is present (non-empty), the growth line iff the growth factor is
defined, the padding line iff at least one padding value is defined and
non-zero, and the item-spacing line iff the item spacing is defined; without
a bounding box and size none of these lines appear. -/
theorem claim_C5_amended : ∀ (f : NodeFields) (level : Nat),
    ((ownChunks f level).any isAlignLine = (geoPresent f && jsStrTruthy f.layoutAlign)) ∧
    ((ownChunks f level).any isGrowthLine = (geoPresent f && f.layoutGrow.isSome)) ∧
    ((ownChunks f level).any isPaddingLine = (geoPresent f && paddingAny f)) ∧
    ((ownChunks f level).any isSpacingLine = (geoPresent f && f.itemSpacing.isSome)) :=
  fun f level =>
    ⟨own_any_align f level, own_any_growth f level, own_any_padding f level,
     own_any_spacing f level⟩

/-! ## Claim C6 -/

/-- C6 counterexample: a fetched design whose `nodes` array holds one root
with six children — seven nodes in total, more than 5 — is labelled `"Low"`,
because the handler tests `nodes.length`, not the total node count. -/
theorem claim_C6_counterexample :
    5 < nodeCount sevenNodeTree ∧ complexityLevel [sevenNodeTree] = "Low" := by
  constructor
  · decide
  · decide

/-- C6 as amended: the complexity label is `"High"` iff the fetched design's
top-level `nodes` array has more than 5 entries, `"Medium"` iff it has more
than 2 and at most 5, and `"Low"` iff it has at most 2 — the count is the
length of the `nodes` array, not the total node count of the analyzed tree. -/
theorem claim_C6_amended : ∀ nodes : List DesignNode,
    (complexityLevel nodes = "High" ↔ 5 < nodes.length) ∧
    (complexityLevel nodes = "Medium" ↔ 2 < nodes.length ∧ nodes.length ≤ 5) ∧
    (complexityLevel nodes = "Low" ↔ nodes.length ≤ 2) := by
  intro nodes
  rw [complexityLevel]
  split_ifs with h5 h2 <;>
    refine ⟨?_, ?_, ?_⟩ <;>
      constructor <;>
        intro h <;>
          first
          | omega
          | rfl
          | (exfalso; revert h; simp)

/-! ## Claim C7 -/

/-- C7: the sanitized file name is exactly the title lowercased with every
maximal run of non-alphanumeric characters collapsed to a single dash and
leading/trailing dashes removed; in particular `"Login Screen!! v2"` maps to
`"login-screen-v2"`. -/
theorem claim_C7_sanitize :
    (∀ s : String, sanitizeFileName s = specSanitize s) ∧
    sanitizeFileName "Login Screen!! v2" = "login-screen-v2" := by
  constructor
  · intro s
    rw [sanitizeFileName, specSanitize]
    exact congrArg String.mk (sanitize_bridge (toLowerString s).data.length _ le_rfl)
  · decide

/-! ## Claim C8 -/

/-- C8: the descriptor engine is deterministic — two runs on an identical
input tree and identical file context produce byte-identical output (in this
embedding the engine reads nothing but its two arguments). -/
theorem claim_C8_deterministic : ∀ (n1 n2 : DesignNode) (f1 f2 : FileContext),
    n1 = n2 → f1 = f2 →
    generateDetailedVisualDescription n1 f1 = generateDetailedVisualDescription n2 f2 := by
  intro n1 n2 f1 f2 h1 h2
  rw [h1, h2]

/-- Witness for C8 on a concrete two-node tree and file context. -/
theorem claim_C8_witness :
    generateDetailedVisualDescription demoNode demoFile =
      generateDetailedVisualDescription demoNode demoFile :=
  claim_C8_deterministic demoNode demoNode demoFile demoFile rfl rfl

/-! ## Claim C9 -/

/-- C9: for a `SOLID` fill whose opacity is present and zero (or absent), the
Colors line substitutes the default opacity 1 and reports `Opacity: 100%`. -/
theorem claim_C9_zero_opacity : ∀ (level idx : Nat) (p : Paint),
    p.opacity = some 0 ∨ p.opacity = none →
    fillChunk level idx p =
      indentStr level ++ ("- **Fill " ++ (toString (idx + 1) ++ ("**: " ++
        (rgbToHex p.color ++ " (Opacity: 100%)\n")))) := by
  intro level idx p h
  have hop : jsNumOr p.opacity 1 = 1 := by
    rcases h with h | h <;> rw [h] <;> simp [jsNumOr]
  rw [fillChunk, hop]
  have hround : jsRound ((1 : ℚ) * 100) = 100 := by
    rw [jsRound, Int.floor_eq_iff]
    constructor <;> norm_num
  rw [hround]
  rfl

/-- Witness for C9 at a white solid fill with opacity exactly 0. -/
theorem claim_C9_witness :
    zeroOpacityFill.opacity = some 0 ∧
    fillChunk 0 0 zeroOpacityFill =
      indentStr 0 ++ ("- **Fill " ++ (toString (0 + 1) ++ ("**: " ++
        (rgbToHex zeroOpacityFill.color ++ " (Opacity: 100%)\n")))) :=
  ⟨rfl, claim_C9_zero_opacity 0 0 zeroOpacityFill (Or.inl rfl)⟩

/-! ## Claim C10 -/

/-- A string-pattern replace touches only the first occurrence. -/
theorem jsReplaceOnce_append (a b : List Char) (hnot : '-' ∉ a) :
    jsReplaceOnce (a ++ '-' :: b) '-' ':' = a ++ ':' :: b := by
  induction a with
  | nil =>
    rw [List.nil_append, jsReplaceOnce, if_pos rfl, List.nil_append]
  | cons x xs ih =>
    have hx : ¬(x = '-') := fun hx => hnot (hx ▸ List.mem_cons_self x xs)
    rw [List.cons_append, jsReplaceOnce, if_neg hx,
      ih (fun hm => hnot (List.mem_cons_of_mem x hm)), List.cons_append]

/-- C10: in the `src/mcp.ts` download tool, every render-pathway request
(imageRef absent or empty) is forwarded with `renderNodeId` applied to its
`nodeId` — which replaces exactly the first `-` by `:` and leaves the rest
unchanged — while fill-pathway requests are forwarded as the original
objects, `nodeId` untouched. -/
theorem claim_C10_renderNodeId : ∀ (nodes : List DownloadNodeReq) (a b : String),
    '-' ∉ a.data →
    ((∀ req ∈ mcpRenderRequests nodes, ∃ nd, nd ∈ nodes ∧ jsStrTruthy nd.imageRef = false ∧
        req.nodeId = renderNodeId nd.nodeId ∧ req.fileName = nd.fileName ∧
        req.fileType = svgOrPng nd.fileName) ∧
      renderNodeId (a ++ "-" ++ b) = a ++ ":" ++ b ∧
      (∀ nd ∈ mcpImageFills nodes, nd ∈ nodes ∧ jsStrTruthy nd.imageRef = true)) := by
  intro nodes a b hnot
  refine ⟨?_, ?_, ?_⟩
  · intro req hreq
    rw [mcpRenderRequests] at hreq
    rcases List.mem_map.mp hreq with ⟨nd, hnd, rfl⟩
    have hmem := List.mem_filter.mp hnd
    have h2 := hmem.2
    simp only [Bool.not_eq_true'] at h2
    exact ⟨nd, hmem.1, h2, rfl, rfl, rfl⟩
  · have hdash : ("-" : String).data = ['-'] := rfl
    have hdata : (a ++ "-" ++ b).data = a.data ++ '-' :: b.data := by
      rw [String.data_append, String.data_append, hdash, List.append_assoc,
        List.singleton_append]
    rw [renderNodeId, hdata, if_pos ?hc]
    case hc =>
      show (a.data ++ '-' :: b.data).elem '-' = true
      exact List.elem_iff.mpr (by simp)
    rw [jsReplaceOnce_append a.data b.data hnot]
    apply String.ext
    have hcolon : (":" : String).data = [':'] := rfl
    rw [String.data_append, String.data_append, hcolon, List.append_assoc,
      List.singleton_append]
  · intro nd hnd
    rw [mcpImageFills] at hnd
    have hmem := List.mem_filter.mp hnd
    exact ⟨hmem.1, hmem.2⟩

/-- Witness for C10: `"1-2-3"` forwards as `"1:2-3"` (only the first dash is
replaced). -/
theorem claim_C10_witness :
    '-' ∉ ("1" : String).data ∧
    renderNodeId ("1" ++ "-" ++ "2-3") = "1" ++ ":" ++ "2-3" :=
  ⟨by decide, (claim_C10_renderNodeId [] "1" "2-3" (by decide)).2.1⟩
